import Mathlib

/-!
Verification development for the Yoo-bot fun-command engine (`fun.py`).

The Python module is shallowly embedded below.  Timestamps (Python floats
from `time.time()`) are modelled as rationals; the process-wide mutable
dictionaries (`_COOLDOWNS`, `_RECENT_GIFS`) are threaded explicitly as a
`BotState`; network access and `random` draws are supplied as explicit
oracle parameters.  Configuration constants that `fun.py` references but
that are not defined anywhere in the sources we have (`COOLDOWN_SECONDS`,
`RECENT_GIF_RETENTION`, `MAX_GIF_CANDIDATES`, `GENERIC_FALLBACK_GIFS`,
`MAX_REACTIONS`) are carried in a `Config` record, modelled from the spec.
-/

namespace YooBot

/-! ## String helpers (embedding of the Python string primitives used) -/

/-- Character-list prefix test (used to embed anchored regex matching and
Python substring search). -/
def leadsWith : List Char → List Char → Bool
  | [], _ => true
  | _ :: _, [] => false
  | p :: ps, c :: cs => p == c && leadsWith ps cs

/-- Python `pat in s` substring containment. -/
def strContainsSub (s pat : String) : Bool :=
  (List.range (s.data.length + 1)).any (fun i => leadsWith pat.data (s.data.drop i))

/-- Python `str.lower()` (ASCII case folding, which is all the sources use). -/
def toLowerStr (s : String) : String :=
  String.mk (s.data.map Char.toLower)

/-- Python `str.strip()`. -/
def pyStrip (s : String) : String :=
  String.mk (((s.data.dropWhile Char.isWhitespace).reverse.dropWhile Char.isWhitespace).reverse)

/-- Whitespace tokenizer: splits a character list into its maximal
whitespace-free tokens (accumulator holds the current token reversed). -/
def tokensAux : List Char → List Char → List (List Char)
  | cur, [] => if cur = [] then [] else [cur.reverse]
  | cur, c :: cs =>
    if c.isWhitespace then
      (if cur = [] then tokensAux [] cs else cur.reverse :: tokensAux [] cs)
    else tokensAux (c :: cur) cs

/-- Join tokens with single spaces. -/
def joinToks : List (List Char) → List Char
  | [] => []
  | [t] => t
  | t :: rest => t ++ ' ' :: joinToks rest

/-- Embeds `compact` of fun.py: `re.sub(r"\s+", " ", text).strip()`, i.e.
collapse every maximal whitespace run to one space and strip the ends;
equivalently, join the whitespace-free tokens with single spaces. -/
def compact (s : String) : String :=
  String.mk (joinToks (tokensAux [] s.data))

/-- Python `str.replace` (leftmost, non-overlapping), with explicit fuel;
the fuel is the input length, which bounds the number of steps. -/
def replaceAllAux (pat repl : List Char) : Nat → List Char → List Char
  | _, [] => []
  | 0, l => l
  | fuel + 1, c :: cs =>
    if leadsWith pat (c :: cs) then
      repl ++ replaceAllAux pat repl fuel (List.drop (pat.length - 1) cs)
    else c :: replaceAllAux pat repl fuel cs

/-- Python `s.replace(pat, repl)`. -/
def pyReplace (s pat repl : String) : String :=
  String.mk (replaceAllAux pat.data repl.data s.data.length s.data)

/-- Embeds `template.format(author=..., target=..., suffix=...)` for the
caption templates (whose only placeholders are these three fields). -/
def pyFormat (template author target suffix : String) : String :=
  pyReplace (pyReplace (pyReplace template "{author}" author) "{target}" target) "{suffix}" suffix

/-- Embeds `random.choice(l)`: the random draw becomes an explicit index,
reduced modulo the list length (`random.choice` requires a nonempty list;
all call sites pass nonempty lists). -/
def pick (l : List String) (i : Nat) : String :=
  l.getD (i % l.length) ""

/-- Python `int(q)` (truncation toward zero) on our rational model of floats. -/
def pyInt (q : ℚ) : ℤ :=
  if 0 ≤ q then ⌊q⌋ else -⌊-q⌋

/-- Decimal digit run value, embedding Python `int(...)` on a digit string. -/
def digitsVal (l : List Char) : Nat :=
  l.foldl (fun n c => n * 10 + (c.toNat - '0'.toNat)) 0

/-- Python `str.isdigit()` restricted to ASCII digits. -/
def isDigits (s : String) : Bool :=
  !s.data.isEmpty && s.data.all Char.isDigit

/-! ## Action catalogue data (verbatim from fun.py) -/

/-- Embeds `ACTIONS` of fun.py. -/
def ACTIONS : List String :=
  ["hug",
   "slap",
   "pat",
   "kiss",
   "cuddle",
   "boop",
   "highfive",
   "poke",
   "bite",
   "tickle",
   "punch",
   "kick",
   "dance",
   "cry",
   "blush",
   "wave",
   "bonk",
   "stare",
   "laugh",
   "smug",
   "sleep",
   "holdhands",
   "feed",
   "throw",
   "run",
   "scared",
   "comfort",
   "tease"]

/-- Embeds `CUTE_SUFFIXES` of fun.py. -/
def CUTE_SUFFIXES : List String :=
  ["uwu",
   "owo",
   "nya~",
   ">w<",
   ".w.",
   "^_^",
   "♥",
   "💖",
   "✨",
   "｡◕‿◕｡",
   "owo~",
   "♡",
   "🌸",
   "�",
   "💫",
   "♥️"]

/-- Embeds `ACTION_REACTIONS` of fun.py (`dict.get(a, [])` semantics). -/
def ACTION_REACTIONS : String → List String
  | "hug" => ["�", "💞"]
  | "slap" => ["😲", "👋"]
  | "pat" => ["😊", "🤏"]
  | "kiss" => ["😘", "💋"]
  | "cuddle" => ["🥰", "�"]
  | "boop" => ["👉", "👈"]
  | "highfive" => ["🙌", "✋"]
  | "poke" => ["😛", "👉"]
  | "bite" => ["😈", "🦴"]
  | "tickle" => ["😂", "🤣"]
  | "punch" => ["💥", "👊"]
  | "kick" => ["🥾", "👟"]
  | "dance" => ["🕺", "💃"]
  | "cry" => ["😢", "💧"]
  | "blush" => ["😊", "😳"]
  | "wave" => ["👋", "🤙"]
  | "bonk" => ["🔨", "😵"]
  | "stare" => ["👀", "�"]
  | "laugh" => ["😆", "🤣"]
  | "smug" => ["😏", "😼"]
  | "sleep" => ["😴", "🛌"]
  | "holdhands" => ["🤝", "♥️"]
  | "feed" => ["🍪", "🍰"]
  | "throw" => ["🎯", "💨"]
  | "run" => ["🏃", "💨"]
  | "scared" => ["😱", "😨"]
  | "comfort" => ["🤗", "🫂"]
  | "tease" => ["😝", "😜"]
  | _ => []

/-- Embeds the literal `FALLBACK_GIFS` dictionary of fun.py, before the
module-level validation pass (`dict.get(a, [])` semantics). -/
def FALLBACK_GIFS_RAW : String → List String
  | "hug" =>
    ["https://media.giphy.com/media/l2QDM9Jnim1YVILXa/giphy.gif",
     "https://media.giphy.com/media/od5H3PmEG5EVq/giphy.gif",
     "https://media.giphy.com/media/143v0Z4767T15e/giphy.gif",
     "https://media.giphy.com/media/sUIZWMnfd4Mb6/giphy.gif",
     "https://media.giphy.com/media/3o6Zt8MgUuvSbkZYWc/giphy.gif",
     "https://media.giphy.com/media/3oEjI6SIIHBdRxXI40/giphy.gif",
     "https://media.giphy.com/media/49mdjsMrH7oze/giphy.gif",
     "https://media.giphy.com/media/5eyhBKLvYhafu/giphy.gif",
     "https://media.giphy.com/media/xT9IgG50Fb7Mi0prBC/giphy.gif",
     "https://media.giphy.com/media/13YrHUvPzUUmkM/giphy.gif"]
  | "slap" =>
    ["https://media.giphy.com/media/Gf3AUz3eBNbTW/giphy.gif",
     "https://media.giphy.com/media/jLeyZWgtwgr2U/giphy.gif",
     "https://media.giphy.com/media/Zau0yrl17uzdK/giphy.gif",
     "https://media.giphy.com/media/11rWoZNpAKw8w/giphy.gif",
     "https://media.giphy.com/media/3o6Mbbs879ozZ9Yic0/giphy.gif",
     "https://media.giphy.com/media/fO6UtDy5pWYwM/giphy.gif",
     "https://media.giphy.com/media/3ohzdIuqJoo8QdKlnW/giphy.gif",
     "https://media.giphy.com/media/LmNwrBhejkK9EFP504/giphy.gif",
     "https://media.giphy.com/media/3o7aD2saalBwwftBIY/giphy.gif",
     "https://media.giphy.com/media/3ornk57KwDXf81rjWM/giphy.gif"]
  | "pat" =>
    ["https://media.giphy.com/media/109ltuoSQT212w/giphy.gif",
     "https://media.giphy.com/media/4HP0ddZnNVvKU/giphy.gif",
     "https://media.giphy.com/media/osYdfUptPqV0s/giphy.gif",
     "https://media.giphy.com/media/ArLxZ4PebH2Ug/giphy.gif",
     "https://media.giphy.com/media/ye7OTQgwmVuVy/giphy.gif",
     "https://media.giphy.com/media/11sBLVxNs7v6WA/giphy.gif",
     "https://media.giphy.com/media/xT0xeJpnrWC4XWblEk/giphy.gif",
     "https://media.giphy.com/media/l3vR6D5Q4Z8d2/giphy.gif",
     "https://media.giphy.com/media/3og0IPxMM0erATueVW/giphy.gif",
     "https://media.giphy.com/media/3o7btPCcdNniyf0ArS/giphy.gif"]
  | "kiss" =>
    ["https://media.giphy.com/media/G3va31oEEnIkM/giphy.gif",
     "https://media.giphy.com/media/FqBTvSNjNzeZG/giphy.gif",
     "https://media.giphy.com/media/bGm9FuBCGg4SY/giphy.gif",
     "https://media.giphy.com/media/11k3oaUjSlFR4I/giphy.gif",
     "https://media.giphy.com/media/l41lQ2UaJ7y2K/giphy.gif",
     "https://media.giphy.com/media/3o7aCTPPm4OHfRLSH6/giphy.gif",
     "https://media.giphy.com/media/Z1kpfgtHmpR8k/giphy.gif",
     "https://media.giphy.com/media/5b8I6Z9z0b5iQ/giphy.gif",
     "https://media.giphy.com/media/3ohhwytHcusSCXXOUg/giphy.gif",
     "https://media.giphy.com/media/8q0JH2Qh3Vf0k/giphy.gif"]
  | "cuddle" =>
    ["https://media.giphy.com/media/3oriO0OEd9QIDdllqo/giphy.gif",
     "https://media.giphy.com/media/3Z1Yj0iXySA2o/giphy.gif",
     "https://media.giphy.com/media/13YrHUvPzUUmkM/giphy.gif",
     "https://media.giphy.com/media/QGc8RgR0J5Na/giphy.gif",
     "https://media.giphy.com/media/3o7aCTPPm4OHfRLSH6/giphy.gif",
     "https://media.giphy.com/media/ASd0Ukj0y3qMM/giphy.gif",
     "https://media.giphy.com/media/xT0xeJpnrWC4XWblEk/giphy.gif",
     "https://media.giphy.com/media/3o6Zt6ML6BklcajjsA/giphy.gif",
     "https://media.giphy.com/media/5GoVLqeAOo6PK/giphy.gif",
     "https://media.giphy.com/media/1BXa2alBjrCXC/giphy.gif"]
  | "boop" =>
    ["https://media.giphy.com/media/3oriO0OEd9QIDdllqo/giphy.gif",
     "https://media.giphy.com/media/111ebonMs90YLu/giphy.gif",
     "https://media.giphy.com/media/12hvLuZ7uzvCvK/giphy.gif",
     "https://media.giphy.com/media/3o6ZsX2w6n2CE3Y8VW/giphy.gif",
     "https://media.giphy.com/media/yoJC2Olx0ekMy2b8bW/giphy.gif",
     "https://media.giphy.com/media/l0MYEqEzwMWFCg8rm/giphy.gif",
     "https://media.giphy.com/media/3ornjXbo3g39Ljjgso/giphy.gif",
     "https://media.giphy.com/media/3o7aCTPPm4OHfRLSH6/giphy.gif",
     "https://media.giphy.com/media/26tPplGWjN0xLybiU/giphy.gif",
     "https://media.giphy.com/media/ASd0Ukj0y3qMM/giphy.gif"]
  | "highfive" =>
    ["https://media.giphy.com/media/3o6ZtpxSZbQRRnwCKQ/giphy.gif",
     "https://media.giphy.com/media/l0MYt5jPR6QX5pnqM/giphy.gif",
     "https://media.giphy.com/media/xT0Gqd2hM4bCj3Q3D6/giphy.gif",
     "https://media.giphy.com/media/3o7TKx3S1KMK1nXyLe/giphy.gif",
     "https://media.giphy.com/media/l0Ex7FJwX9G0qS3a0/giphy.gif",
     "https://media.giphy.com/media/3o7aD2saalBwwftBIY/giphy.gif",
     "https://media.giphy.com/media/3oEduSbSGpGaRX2Vri/giphy.gif",
     "https://media.giphy.com/media/3o7qDXK7zK6pt5Q9hW/giphy.gif",
     "https://media.giphy.com/media/3o6Zs4p0o6gqg/giphy.gif",
     "https://media.giphy.com/media/1BXa2alBjrCXC/giphy.gif"]
  | "poke" =>
    ["https://media.giphy.com/media/3og0IPxMM0erATueVW/giphy.gif",
     "https://media.giphy.com/media/ZqlvCTNHpqrio/giphy.gif",
     "https://media.giphy.com/media/3o7aD2saalBwwftBIY/giphy.gif",
     "https://media.giphy.com/media/3ornk57KwDXf81rjWM/giphy.gif",
     "https://media.giphy.com/media/3og0IPxMM0erATueVW/giphy.gif",
     "https://media.giphy.com/media/26u4b45b8KlgAB7iM/giphy.gif",
     "https://media.giphy.com/media/l0MYEqEzwMWFCg8rm/giphy.gif",
     "https://media.giphy.com/media/ASd0Ukj0y3qMM/giphy.gif",
     "https://media.giphy.com/media/11sBLVxNs7v6WA/giphy.gif",
     "https://media.giphy.com/media/5GoVLqeAOo6PK/giphy.gif"]
  | "bite" =>
    ["https://media.giphy.com/media/11rWoZNpAKw8w/giphy.gif",
     "https://media.giphy.com/media/KI9oNS4JBemyI/giphy.gif",
     "https://media.giphy.com/media/10UeedrT5MIfPG/giphy.gif",
     "https://media.giphy.com/media/3oEjI6SIIHBdRxXI40/giphy.gif",
     "https://media.giphy.com/media/3og0IPxMM0erATueVW/giphy.gif",
     "https://media.giphy.com/media/26tPplGWjN0xLybiU/giphy.gif",
     "https://media.giphy.com/media/3o7btPfuT1ewy8vCAk/giphy.gif",
     "https://media.giphy.com/media/3o6ZsX2w6n2CE3Y8VW/giphy.gif",
     "https://media.giphy.com/media/ASd0Ukj0y3qMM/giphy.gif",
     "https://media.giphy.com/media/5GoVLqeAOo6PK/giphy.gif"]
  | "tickle" =>
    ["https://media.giphy.com/media/3o7btPCcdNniyf0ArS/giphy.gif",
     "https://media.giphy.com/media/xTiTnBoR36Gzkhp9bG/giphy.gif",
     "https://media.giphy.com/media/3o6ZsX2w6n2CE3Y8VW/giphy.gif",
     "https://media.giphy.com/media/26u4b45b8KlgAB7iM/giphy.gif",
     "https://media.giphy.com/media/3oEjI6SIIHBdRxXI40/giphy.gif",
     "https://media.giphy.com/media/ASd0Ukj0y3qMM/giphy.gif",
     "https://media.giphy.com/media/5GoVLqeAOo6PK/giphy.gif",
     "https://media.giphy.com/media/xT0xeJpnrWC4XWblEk/giphy.gif",
     "https://media.giphy.com/media/3o7aCTPPm4OHfRLSH6/giphy.gif",
     "https://media.giphy.com/media/11sBLVxNs7v6WA/giphy.gif"]
  | "punch" =>
    ["https://media.giphy.com/media/l3q2K5jinAlChoCLS/giphy.gif",
     "https://media.giphy.com/media/26tPplGWjN0xLybiU/giphy.gif",
     "https://media.giphy.com/media/xT0xeJpnrWC4XWblEk/giphy.gif",
     "https://media.giphy.com/media/l0MYt5jPR6QX5pnqM/giphy.gif",
     "https://media.giphy.com/media/3o6Zt8MgUuvSbkZYWc/giphy.gif",
     "https://media.giphy.com/media/3o7aD2saalBwwftBIY/giphy.gif",
     "https://media.giphy.com/media/3ornk57KwDXf81rjWM/giphy.gif",
     "https://media.giphy.com/media/LmNwrBhejkK9EFP504/giphy.gif",
     "https://media.giphy.com/media/3o7qDXK7zK6pt5Q9hW/giphy.gif",
     "https://media.giphy.com/media/3oEduSbSGpGaRX2Vri/giphy.gif"]
  | "kick" =>
    ["https://media.giphy.com/media/TgKEpC5NdGvIY/giphy.gif",
     "https://media.giphy.com/media/hvRJCLFzcasrR4ia7z/giphy.gif",
     "https://media.giphy.com/media/3o7aD2saalBwwftBIY/giphy.gif",
     "https://media.giphy.com/media/3o7qDXK7zK6pt5Q9hW/giphy.gif",
     "https://media.giphy.com/media/xTiTnJ2m2k0bVb3Gx6/giphy.gif",
     "https://media.giphy.com/media/26tPplGWjN0xLybiU/giphy.gif",
     "https://media.giphy.com/media/3oEduSbSGpGaRX2Vri/giphy.gif",
     "https://media.giphy.com/media/3ornk57KwDXf81rjWM/giphy.gif",
     "https://media.giphy.com/media/xT0xeJpnrWC4XWblEk/giphy.gif",
     "https://media.giphy.com/media/ASd0Ukj0y3qMM/giphy.gif"]
  | "dance" =>
    ["https://media.giphy.com/media/3oriO7A7bt1wsEP4cw/giphy.gif",
     "https://media.giphy.com/media/l41YtZOb9EUABnuqA/giphy.gif",
     "https://media.giphy.com/media/5PhDdJfLt4FXe/giphy.gif",
     "https://media.giphy.com/media/3oEjI6SIIHBdRxXI40/giphy.gif",
     "https://media.giphy.com/media/26tPplGWjN0xLybiU/giphy.gif",
     "https://media.giphy.com/media/ASd0Ukj0y3qMM/giphy.gif",
     "https://media.giphy.com/media/3oEduSbSGpGaRX2Vri/giphy.gif",
     "https://media.giphy.com/media/3o7aD2saalBwwftBIY/giphy.gif",
     "https://media.giphy.com/media/xT0xeJpnrWC4XWblEk/giphy.gif",
     "https://media.giphy.com/media/11sBLVxNs7v6WA/giphy.gif"]
  | "cry" =>
    ["https://media.giphy.com/media/d2lcHJTG5Tscg/giphy.gif",
     "https://media.giphy.com/media/ROF8OQvDmxytW/giphy.gif",
     "https://media.giphy.com/media/26gssIytJvy1b1THO/giphy.gif",
     "https://media.giphy.com/media/3og0IPxMM0erATueVW/giphy.gif",
     "https://media.giphy.com/media/l0MYt5jPR6QX5pnqM/giphy.gif",
     "https://media.giphy.com/media/11sBLVxNs7v6WA/giphy.gif",
     "https://media.giphy.com/media/ASd0Ukj0y3qMM/giphy.gif",
     "https://media.giphy.com/media/3ornk57KwDXf81rjWM/giphy.gif",
     "https://media.giphy.com/media/3oEduSbSGpGaRX2Vri/giphy.gif",
     "https://media.giphy.com/media/3o6ZsX2w6n2CE3Y8VW/giphy.gif"]
  | "blush" =>
    ["https://media.giphy.com/media/xUOwGqzY13pWf6I1vi/giphy.gif",
     "https://media.giphy.com/media/fQZX2aoRC1Tqw/giphy.gif",
     "https://media.giphy.com/media/11sBLVxNs7v6WA/giphy.gif",
     "https://media.giphy.com/media/3oEduSbSGpGaRX2Vri/giphy.gif",
     "https://media.giphy.com/media/3o7aD2saalBwwftBIY/giphy.gif",
     "https://media.giphy.com/media/ASd0Ukj0y3qMM/giphy.gif",
     "https://media.giphy.com/media/xT0xeJpnrWC4XWblEk/giphy.gif",
     "https://media.giphy.com/media/5PhDdJfLt4FXe/giphy.gif",
     "https://media.giphy.com/media/13YrHUvPzUUmkM/giphy.gif",
     "https://media.giphy.com/media/3o6Zt8MgUuvSbkZYWc/giphy.gif"]
  | "wave" =>
    ["https://media.giphy.com/media/xT0xeJpnrWC4XWblEk/giphy.gif",
     "https://media.giphy.com/media/ASd0Ukj0y3qMM/giphy.gif",
     "https://media.giphy.com/media/3o7aD2saalBwwftBIY/giphy.gif",
     "https://media.giphy.com/media/11sBLVxNs7v6WA/giphy.gif",
     "https://media.giphy.com/media/3oEduSbSGpGaRX2Vri/giphy.gif",
     "https://media.giphy.com/media/5GoVLqeAOo6PK/giphy.gif",
     "https://media.giphy.com/media/2YbG2d4pXQGXS/giphy.gif",
     "https://media.giphy.com/media/3o7aD2saalBwwftBIY/giphy.gif",
     "https://media.giphy.com/media/26tPplGWjN0xLybiU/giphy.gif",
     "https://media.giphy.com/media/3ornk57KwDXf81rjWM/giphy.gif"]
  | "bonk" =>
    ["https://media.giphy.com/media/j3iGKfXRKlLqw/giphy.gif",
     "https://media.giphy.com/media/MWSRkVoNaC30A/giphy.gif",
     "https://media.giphy.com/media/26gssIytJvy1b1THO/giphy.gif",
     "https://media.giphy.com/media/l0MYEqEzwMWFCg8rm/giphy.gif",
     "https://media.giphy.com/media/3o6Zt8MgUuvSbkZYWc/giphy.gif",
     "https://media.giphy.com/media/3o7aD2saalBwwftBIY/giphy.gif",
     "https://media.giphy.com/media/3oEduSbSGpGaRX2Vri/giphy.gif",
     "https://media.giphy.com/media/xT0xeJpnrWC4XWblEk/giphy.gif",
     "https://media.giphy.com/media/ASd0Ukj0y3qMM/giphy.gif",
     "https://media.giphy.com/media/11sBLVxNs7v6WA/giphy.gif"]
  | "stare" =>
    ["https://media.giphy.com/media/XreQmk7ETCak0/giphy.gif",
     "https://media.giphy.com/media/3o7btYFgbkD2MPkzVu/giphy.gif",
     "https://media.giphy.com/media/3oEduSbSGpGaRX2Vri/giphy.gif",
     "https://media.giphy.com/media/ASd0Ukj0y3qMM/giphy.gif",
     "https://media.giphy.com/media/3o7aD2saalBwwftBIY/giphy.gif",
     "https://media.giphy.com/media/l0MYEqEzwMWFCg8rm/giphy.gif",
     "https://media.giphy.com/media/26tPplGWjN0xLybiU/giphy.gif",
     "https://media.giphy.com/media/3ornk57KwDXf81rjWM/giphy.gif",
     "https://media.giphy.com/media/11sBLVxNs7v6WA/giphy.gif",
     "https://media.giphy.com/media/3o6ZsX2w6n2CE3Y8VW/giphy.gif"]
  | "laugh" =>
    ["https://media.giphy.com/media/l0MYt5jPR6QX5pnqM/giphy.gif",
     "https://media.giphy.com/media/3o7btPfuT1ewy8vCAk/giphy.gif",
     "https://media.giphy.com/media/3oEjI6SIIHBdRxXI40/giphy.gif",
     "https://media.giphy.com/media/ASd0Ukj0y3qMM/giphy.gif",
     "https://media.giphy.com/media/3o7aCTPPm4OHfRLSH6/giphy.gif",
     "https://media.giphy.com/media/11sBLVxNs7v6WA/giphy.gif",
     "https://media.giphy.com/media/26tPplGWjN0xLybiU/giphy.gif",
     "https://media.giphy.com/media/3o7qDXK7zK6pt5Q9hW/giphy.gif",
     "https://media.giphy.com/media/xT0xeJpnrWC4XWblEk/giphy.gif",
     "https://media.giphy.com/media/3oEduSbSGpGaRX2Vri/giphy.gif"]
  | "smug" =>
    ["https://media.giphy.com/media/3o7btNR05vVYlfaU6Y/giphy.gif",
     "https://media.giphy.com/media/VbnUQpnihPSIgIXuZv/giphy.gif",
     "https://media.giphy.com/media/1BXa2alBjrCXC/giphy.gif",
     "https://media.giphy.com/media/ASd0Ukj0y3qMM/giphy.gif",
     "https://media.giphy.com/media/3o7aD2saalBwwftBIY/giphy.gif",
     "https://media.giphy.com/media/11sBLVxNs7v6WA/giphy.gif",
     "https://media.giphy.com/media/3oEduSbSGpGaRX2Vri/giphy.gif",
     "https://media.giphy.com/media/xT0xeJpnrWC4XWblEk/giphy.gif",
     "https://media.giphy.com/media/26tPplGWjN0xLybiU/giphy.gif",
     "https://media.giphy.com/media/3ornk57KwDXf81rjWM/giphy.gif"]
  | "sleep" =>
    ["https://media.giphy.com/media/fnlXXGImVWB0RYWWQj/giphy.gif",
     "https://media.giphy.com/media/3o7TKsQj4X3cJpGRNm/giphy.gif",
     "https://media.giphy.com/media/3oEduSbSGpGaRX2Vri/giphy.gif",
     "https://media.giphy.com/media/ASd0Ukj0y3qMM/giphy.gif",
     "https://media.giphy.com/media/11sBLVxNs7v6WA/giphy.gif",
     "https://media.giphy.com/media/l0MYEqEzwMWFCg8rm/giphy.gif",
     "https://media.giphy.com/media/3o7aD2saalBwwftBIY/giphy.gif",
     "https://media.giphy.com/media/xT0xeJpnrWC4XWblEk/giphy.gif",
     "https://media.giphy.com/media/26tPplGWjN0xLybiU/giphy.gif",
     "https://media.giphy.com/media/3ornk57KwDXf81rjWM/giphy.gif"]
  | "holdhands" =>
    ["https://media.giphy.com/media/l0MYB8Ory7Hqefo9a/giphy.gif",
     "https://media.giphy.com/media/VbnUQpnihPSIgIXuZv/giphy.gif",
     "https://media.giphy.com/media/3oEduSbSGpGaRX2Vri/giphy.gif",
     "https://media.giphy.com/media/ASd0Ukj0y3qMM/giphy.gif",
     "https://media.giphy.com/media/11sBLVxNs7v6WA/giphy.gif",
     "https://media.giphy.com/media/26tPplGWjN0xLybiU/giphy.gif",
     "https://media.giphy.com/media/3o7aD2saalBwwftBIY/giphy.gif",
     "https://media.giphy.com/media/xT0xeJpnrWC4XWblEk/giphy.gif",
     "https://media.giphy.com/media/3o7qDXK7zK6pt5Q9hW/giphy.gif",
     "https://media.giphy.com/media/3ornk57KwDXf81rjWM/giphy.gif"]
  | "feed" =>
    ["https://media.giphy.com/media/26uflHj8UQ33JmUqA/giphy.gif",
     "https://media.giphy.com/media/10UeedrT5MIfPG/giphy.gif",
     "https://media.giphy.com/media/l0MYt5jPR6QX5pnqM/giphy.gif",
     "https://media.giphy.com/media/3oEduSbSGpGaRX2Vri/giphy.gif",
     "https://media.giphy.com/media/ASd0Ukj0y3qMM/giphy.gif",
     "https://media.giphy.com/media/11sBLVxNs7v6WA/giphy.gif",
     "https://media.giphy.com/media/3o7aD2saalBwwftBIY/giphy.gif",
     "https://media.giphy.com/media/3ornk57KwDXf81rjWM/giphy.gif",
     "https://media.giphy.com/media/26tPplGWjN0xLybiU/giphy.gif",
     "https://media.giphy.com/media/5GoVLqeAOo6PK/giphy.gif"]
  | "throw" =>
    ["https://media.giphy.com/media/13CoXDiaCcCoyk/giphy.gif",
     "https://media.giphy.com/media/3o7TKx3S1KMK1nXyLe/giphy.gif",
     "https://media.giphy.com/media/26gssIytJvy1b1THO/giphy.gif",
     "https://media.giphy.com/media/3oEduSbSGpGaRX2Vri/giphy.gif",
     "https://media.giphy.com/media/ASd0Ukj0y3qMM/giphy.gif",
     "https://media.giphy.com/media/11sBLVxNs7v6WA/giphy.gif",
     "https://media.giphy.com/media/3o7aD2saalBwwftBIY/giphy.gif",
     "https://media.giphy.com/media/xT0xeJpnrWC4XWblEk/giphy.gif",
     "https://media.giphy.com/media/26tPplGWjN0xLybiU/giphy.gif",
     "https://media.giphy.com/media/3ornk57KwDXf81rjWM/giphy.gif"]
  | "run" =>
    ["https://media.giphy.com/media/l0MYEqEzwMWFCg8rm/giphy.gif",
     "https://media.giphy.com/media/3o6ZsX2w6n2CE3Y8VW/giphy.gif",
     "https://media.giphy.com/media/3o7aD2saalBwwftBIY/giphy.gif",
     "https://media.giphy.com/media/ASd0Ukj0y3qMM/giphy.gif",
     "https://media.giphy.com/media/11sBLVxNs7v6WA/giphy.gif",
     "https://media.giphy.com/media/xT0xeJpnrWC4XWblEk/giphy.gif",
     "https://media.giphy.com/media/26tPplGWjN0xLybiU/giphy.gif",
     "https://media.giphy.com/media/3oEduSbSGpGaRX2Vri/giphy.gif",
     "https://media.giphy.com/media/3ornk57KwDXf81rjWM/giphy.gif",
     "https://media.giphy.com/media/5GoVLqeAOo6PK/giphy.gif"]
  | "scared" =>
    ["https://media.giphy.com/media/XpgOZHuDfIkoM/giphy.gif",
     "https://media.giphy.com/media/3og0IPxMM0erATueVW/giphy.gif",
     "https://media.giphy.com/media/26gssIytJvy1b1THO/giphy.gif",
     "https://media.giphy.com/media/3oEduSbSGpGaRX2Vri/giphy.gif",
     "https://media.giphy.com/media/ASd0Ukj0y3qMM/giphy.gif",
     "https://media.giphy.com/media/11sBLVxNs7v6WA/giphy.gif",
     "https://media.giphy.com/media/3o7aD2saalBwwftBIY/giphy.gif",
     "https://media.giphy.com/media/xT0xeJpnrWC4XWblEk/giphy.gif",
     "https://media.giphy.com/media/26tPplGWjN0xLybiU/giphy.gif",
     "https://media.giphy.com/media/3ornk57KwDXf81rjWM/giphy.gif"]
  | "comfort" =>
    ["https://media.giphy.com/media/49mdjsMrH7oze/giphy.gif",
     "https://media.giphy.com/media/13YrHUvPzUUmkM/giphy.gif",
     "https://media.giphy.com/media/3oEduSbSGpGaRX2Vri/giphy.gif",
     "https://media.giphy.com/media/ASd0Ukj0y3qMM/giphy.gif",
     "https://media.giphy.com/media/11sBLVxNs7v6WA/giphy.gif",
     "https://media.giphy.com/media/l0MYEqEzwMWFCg8rm/giphy.gif",
     "https://media.giphy.com/media/3o7aD2saalBwwftBIY/giphy.gif",
     "https://media.giphy.com/media/3ornk57KwDXf81rjWM/giphy.gif",
     "https://media.giphy.com/media/26tPplGWjN0xLybiU/giphy.gif",
     "https://media.giphy.com/media/5GoVLqeAOo6PK/giphy.gif"]
  | "tease" =>
    ["https://media.giphy.com/media/xT1XGYy9NPhWRPp6uA/giphy.gif",
     "https://media.giphy.com/media/3o7btYFgbkD2MPkzVu/giphy.gif",
     "https://media.giphy.com/media/3o7qDXK7zK6pt5Q9hW/giphy.gif",
     "https://media.giphy.com/media/26u4b45b8KlgAB7iM/giphy.gif",
     "https://media.giphy.com/media/3oEduSbSGpGaRX2Vri/giphy.gif",
     "https://media.giphy.com/media/ASd0Ukj0y3qMM/giphy.gif",
     "https://media.giphy.com/media/11sBLVxNs7v6WA/giphy.gif",
     "https://media.giphy.com/media/3o7aD2saalBwwftBIY/giphy.gif",
     "https://media.giphy.com/media/xT0xeJpnrWC4XWblEk/giphy.gif",
     "https://media.giphy.com/media/5GoVLqeAOo6PK/giphy.gif"]
  | _ => []

/-- Embeds `CAPTION_TEMPLATES` of fun.py (`dict.get(a, [])` semantics). -/
def CAPTION_TEMPLATES : String → List String
  | "hug" =>
    ["{author} gives {target} the warmest hug ever.",
     "{author} hugs {target} tightly, like a cozy blanket.",
     "{author} wraps {target} in a giant fluffy hug uwu.",
     "{author} hugs {target} softly — so cute!",
     "{author} snuggles {target} warmly {suffix}",
     "{author} holds {target} close and hums a tiny tune.",
     "{author} hugs {target} like there\u2019s no tomorrow.",
     "{author} gives {target} a comforting squeeze {suffix}",
     "{author} embraces {target} with all the love they have.",
     "{author} hugs {target} till the stars come out."]
  | "slap" =>
    ["{author} slaps {target} — dramatic anime style!",
     "{author} gives {target} a light, comedic slap.",
     "{author} slaps {target} across the face — ouch!",
     "{author} executes an epic slap move on {target} {suffix}",
     "{author} lightly slaps {target} — it\x27s just a prank!",
     "{author} delivers a swift anime-style slap to {target}.",
     "{author} slaps {target} and everybody gasps.",
     "{author} slaps {target} gently (not too hard).",
     "{author} performs the legendary slap technique on {target}.",
     "{author} slaps {target} with dramatic sound effects!"]
  | "pat" =>
    ["{author} pats {target} on the head gently.",
     "{author} gives {target} a reassuring pat.",
     "{author} pats {target} — good job!",
     "{author} pats {target} like a proud mentor {suffix}",
     "{author} does a tiny pat for {target}.",
     "{author} pats {target} softly, squeak.",
     "{author} pats {target} with approval.",
     "{author} gives {target} the sweetest little pat.",
     "{author} pats {target} — so wholesome.",
     "{author} gives a gentle pat to {target}."]
  | "kiss" =>
    ["{author} gives {target} a gentle kiss.",
     "{author} kisses {target} softly {suffix}",
     "{author} pecks {target} on the cheek.",
     "{author} steals a kiss from {target}!",
     "{author} gives {target} a cute smooch.",
     "{author} kisses {target} under the stars.",
     "{author} gives {target} a cinematic anime kiss.",
     "{author} kisses {target} gently and blushes.",
     "{author} catches {target} by surprise with a sweet kiss.",
     "{author} pecks {target} and grins."]
  | "cuddle" =>
    ["{author} cuddles {target} like two marshmallows.",
     "{author} cuddles {target} on the couch {suffix}",
     "{author} invites {target} for a cozy cuddle session.",
     "{author} and {target} cuddle and watch anime.",
     "{author} snuggles {target} warmly.",
     "{author} cuddles {target} while humming softly.",
     "{author} cuddles {target} until sleep.",
     "{author} holds {target} close for a long cuddle.",
     "{author} wraps {target} in warm cuddles.",
     "{author} gives {target} the ultimate cuddle."]
  | "boop" =>
    ["{author} boops {target} on the nose {suffix}",
     "{author} gives {target} an adorable boop.",
     "{author} boops {target} — squeak!",
     "{author} gently boops {target}\x27s nose.",
     "{author} boops {target} with tiny fingers.",
     "{author} executes a perfect nose-boop on {target}.",
     "{author} boops {target} and everything is good.",
     "{author} performs the infamous boop on {target}.",
     "{author} gives {target} a playful boop.",
     "{author} boops {target} and giggles."]
  | "highfive" =>
    ["{author} high-fives {target} — bam!",
     "{author} gives {target} a celebratory highfive {suffix}",
     "{author} high-five for {target} — nice!",
     "{author} slaps hands with {target} in excitement.",
     "{author} and {target} high-five like champs.",
     "{author} high-fives {target} to celebrate.",
     "{author} gives {target} a big high-five.",
     "{author} high-fives {target} energetically.",
     "{author} high-fives {target} with style.",
     "{author} shares a victory highfive with {target}."]
  | "poke" =>
    ["{author} pokes {target} — hey!",
     "{author} gives {target} a tiny poke.",
     "{author} pokes {target} to get attention.",
     "{author} pokes {target} gently {suffix}",
     "{author} pokes {target} and waits.",
     "{author} pokes {target} playfully.",
     "{author} gives {target} a curious poke.",
     "{author} pokes {target} with a feather.",
     "{author} pokes {target} — nothing happens.",
     "{author} pokes {target} again."]
  | "bite" =>
    ["{author} playfully bites {target} {suffix}",
     "{author} gives {target} a tiny nibble.",
     "{author} bites {target} gently like a puppy.",
     "{author} gives {target} a dramatic chomp!",
     "{author} play-bites {target} affectionately.",
     "{author} bites {target} but it\x27s just love.",
     "{author} gives {target} a friendly little bite.",
     "{author} bites {target} and blushes.",
     "{author} gives {target} a soft bite.",
     "{author} attempts a gentle bite on {target}."]
  | "tickle" =>
    ["{author} tickles {target} until they laugh.",
     "{author} tickles {target} mercilessly {suffix}",
     "{author} tickles {target} and both giggle.",
     "{author} tickles {target} — squeals!",
     "{author} tickles {target} playfully.",
     "{author} tickles {target} to cheer them up.",
     "{author} tickles {target} and then hugs them.",
     "{author} tickles {target} softly.",
     "{author} tickles {target} — can\x27t stop laughing.",
     "{author} tickles {target} with delight."]
  | "punch" =>
    ["{author} lands a dramatic punch on {target}!",
     "{author} throws a swift punch at {target}.",
     "{author} punches {target} — anime impact!",
     "{author} gives {target} a playful punch {suffix}",
     "{author} punches {target} with exaggerated force.",
     "{author} lands a heroic punch on {target}.",
     "{author} punches {target} and time slows down.",
     "{author} punches {target} with style.",
     "{author} delivers a quick jab to {target}.",
     "{author} punches {target} dramatically."]
  | "kick" =>
    ["{author} kicks {target} with a flying move!",
     "{author} performs a swift kick on {target}.",
     "{author} kicks {target} — cinematic style!",
     "{author} gives {target} a playful kick {suffix}",
     "{author} kicks {target} and dust flies.",
     "{author} lands a neat kick on {target}.",
     "{author} kicks {target} like a pro.",
     "{author} does a spin-kick on {target}.",
     "{author} gives {target} a friendly kick.",
     "{author} kicks {target} in a dramatic pose."]
  | "dance" =>
    ["{author} dances with {target} joyfully.",
     "{author} pulls {target} into a dance-off {suffix}",
     "{author} and {target} break into synchronized dancing.",
     "{author} shows off moves while dancing with {target}.",
     "{author} dances with {target} like no one\x27s watching.",
     "{author} dances happily with {target}.",
     "{author} invites {target} to a silly dance.",
     "{author} dances with {target} under neon lights.",
     "{author} dances with {target} and smiles.",
     "{author} grooves with {target} to the beat."]
  | "cry" =>
    ["{author} cries with {target} comforting them.",
     "{author} sheds a tear while {target} offers comfort.",
     "{author} cries dramatically (in a cute way).",
     "{author} cries and {target} hands a tissue {suffix}",
     "{author} cries softly while {target} watches.",
     "{author} cries a little and takes a breath.",
     "{author} cries but feels better next to {target}.",
     "{author} cries and {target} gives a hug.",
     "{author} cries but finds hope with {target}.",
     "{author} cries and then laughs it off."]
  | "blush" =>
    ["{author} blushes at {target}\x27s compliment {suffix}",
     "{author} turns bright red and hides behind a hand.",
     "{author} blushes while {target} grins.",
     "{author} blushes awkwardly but it\x27s cute.",
     "{author} blushes and smiles shyly.",
     "{author} blushes a little seeing {target}.",
     "{author} blushes and looks away coyly.",
     "{author} blushes in an adorable way.",
     "{author} blushes while holding {target}\x27s hand.",
     "{author} blushes and giggles softly."]
  | "wave" =>
    ["{author} waves at {target} enthusiastically.",
     "{author} gives {target} a friendly wave {suffix}",
     "{author} waves with a big smile.",
     "{author} waves slowly and cutely.",
     "{author} waves from across the room.",
     "{author} waves to catch {target}\x27s attention.",
     "{author} waves and says hello.",
     "{author} waves with both hands.",
     "{author} waves shyly at {target}.",
     "{author} waves cheerfully."]
  | "bonk" =>
    ["{author} bonks {target} lightly on the head {suffix}",
     "{author} executes a comedic bonk on {target}.",
     "{author} bonks {target} with a soft toy.",
     "{author} bonks {target} — meme style.",
     "{author} bonks {target} for being silly.",
     "{author} gives {target} a playful bonk.",
     "{author} bonks {target} and they both laugh.",
     "{author} bonks {target} with cartoon sound effects.",
     "{author} bonks {target} gently on the noggin.",
     "{author} bonks {target} softly and smiles."]
  | "stare" =>
    ["{author} stares at {target} intensely.",
     "{author} gives {target} a long, meaningful stare {suffix}",
     "{author} stares and raises an eyebrow.",
     "{author} stares like a mysterious anime character.",
     "{author} stares until {target} reacts.",
     "{author} stares playfully at {target}.",
     "{author} stares with curiosity.",
     "{author} stares and waits for {target} to blink.",
     "{author} stares like it\x27s a staring contest.",
     "{author} stares and smiles slowly."]
  | "laugh" =>
    ["{author} laughs with {target} until they cry.",
     "{author} laughs at {target}\x27s joke {suffix}",
     "{author} laughs loudly and heartily.",
     "{author} laughs and claps with {target}.",
     "{author} laughs so hard they snort.",
     "{author} chuckles and grins at {target}.",
     "{author} laughs with a gleam in their eye.",
     "{author} laughs and pats {target} on the back.",
     "{author} laughs together with {target}.",
     "{author} laughs and spreads joy."]
  | "smug" =>
    ["{author} smirks smugly at {target} {suffix}",
     "{author} looks at {target} with a smug grin.",
     "{author} gives {target} a playful smug stare.",
     "{author} says \x27I told you so\x27 with a smug face.",
     "{author} looks quite pleased with themselves around {target}.",
     "{author} smirks and taps their chin.",
     "{author} gives {target} a teasing, smug smile.",
     "{author} looks smugly at {target}.",
     "{author} smirks and walks away victorious.",
     "{author} strikes a smug pose for {target}."]
  | "sleep" =>
    ["{author} dozes off next to {target}. Zzz...",
     "{author} drifts to sleep softly {suffix}",
     "{author} snoozes while {target} watches peacefully.",
     "{author} naps beside {target}.",
     "{author} sleeps like a comfortable kitty.",
     "{author} curls up and sleeps soundly.",
     "{author} falls asleep mid-conversation.",
     "{author} sleeps and dreams of {target}.",
     "{author} sleeps with a soft smile.",
     "{author} dozes peacefully."]
  | "holdhands" =>
    ["{author} holds {target}\x27s hand warmly.",
     "{author} and {target} hold hands while walking {suffix}",
     "{author} clasps {target}\x27s hand gently.",
     "{author} holds {target}\x27s hand and smiles.",
     "{author} squeezes {target}\x27s hand softly.",
     "{author} links fingers with {target}.",
     "{author} holds hands and feels safe.",
     "{author} holds hands in silence.",
     "{author} holds {target}\x27s hand tenderly.",
     "{author} holds hands and hums a tune."]
  | "feed" =>
    ["{author} feeds {target} a tasty treat {suffix}",
     "{author} offers {target} a cute snack.",
     "{author} feeds {target} with a spoon.",
     "{author} feeds {target} a slice of cake.",
     "{author} feeds {target} like a loving friend.",
     "{author} shares a snack with {target}.",
     "{author} offers {target} some yummy food.",
     "{author} feeds {target} and they smile.",
     "{author} feeds {target} a chocolate bite.",
     "{author} feeds {target} and they blush."]
  | "throw" =>
    ["{author} throws {target} a playful object!",
     "{author} tosses {target} across the screen (not serious).",
     "{author} throws a plush at {target} {suffix}",
     "{author} launches {target} into a soft tumble.",
     "{author} throws {target} gently, all in fun.",
     "{author} tosses something at {target}.",
     "{author} throws a paper plane at {target}.",
     "{author} playfully throws {target}\x27s hat.",
     "{author} tosses {target} a ball of yarn.",
     "{author} throws {target} into an imaginary pool."]
  | "run" =>
    ["{author} runs away with {target} in tow!",
     "{author} runs like the wind with {target} {suffix}",
     "{author} and {target} sprint off laughing.",
     "{author} jogs happily beside {target}.",
     "{author} runs to catch {target}.",
     "{author} runs toward an adventure with {target}.",
     "{author} runs with excitement.",
     "{author} dashes off and returns with snacks.",
     "{author} runs and flings arms wide.",
     "{author} runs while singing."]
  | "scared" =>
    ["{author} shivers in fear and clutches {target}.",
     "{author} looks scared and hides behind {target} {suffix}",
     "{author} is startled and jumps.",
     "{author} screams dramatically in fright.",
     "{author} looks wide-eyed and scared.",
     "{author} trembles a little with fear.",
     "{author} gulps and holds {target}\x27s hand.",
     "{author} hides behind {target} for safety.",
     "{author} flinches and recovers.",
     "{author} is spooked and then laughs it off."]
  | "comfort" =>
    ["{author} comforts {target} with kind words {suffix}",
     "{author} offers a caring embrace to {target}.",
     "{author} sits with {target} and listens.",
     "{author} wraps {target} in a warm blanket of support.",
     "{author} holds {target} and whispers encouragement.",
     "{author} comforts {target} until they smile.",
     "{author} offers a shoulder to cry on.",
     "{author} comforts {target} and offers tea.",
     "{author} shares a calming hug with {target}.",
     "{author} reassures {target} gently."]
  | "tease" =>
    ["{author} teases {target} playfully {suffix}",
     "{author} pokes fun at {target} but it\x27s loving.",
     "{author} teases {target} with a grin.",
     "{author} makes a cheeky comment at {target}.",
     "{author} teases {target} and winks.",
     "{author} jokes around with {target}.",
     "{author} teases {target} gently.",
     "{author} rib-tickles {target} with teasing words.",
     "{author} teases {target} and laughs.",
     "{author} teases {target} in a cute way."]
  | _ => []


/-! ## Configuration, state and outputs -/

/-- Modelled from the spec: the configuration constants that fun.py reads
but that are missing from the sources we have.  `cooldownSeconds` is the
per-invocation cooldown (`COOLDOWN_SECONDS`; the spec bounds it to [0,30]
and its properties use 5), `recentCap` is the recent-GIF retention cap
(`RECENT_GIF_RETENTION`), `maxGifCandidates` is `MAX_GIF_CANDIDATES`,
`generics` is the shared `GENERIC_FALLBACK_GIFS` list, and `maxReactions`
is `MAX_REACTIONS`. -/
structure Config where
  cooldownSeconds : ℚ
  recentCap : Nat
  maxGifCandidates : Nat
  generics : List String
  maxReactions : Nat

/-- Oracle for the effects fun.py draws from outside: the URLs that the
Tenor branch of `choose_gif_for_action` appends (empty when the key is
unset, the request fails, or an exception is swallowed), and the values of
the `random` draws, one parameter per call site. -/
structure Oracle where
  fetched : List String
  tIdx : Nat
  sIdx : Nat
  r1 : ℚ
  r2 : ℚ
  rOwo : ℚ
  owoIdx : Nat
  endIdx : Nat

/-- A guild member as `resolve_member` reads it. -/
structure Member where
  id : Nat
  name : String
  discriminator : String
  display_name : String
deriving DecidableEq

/-- A guild: its id and member list. -/
structure GuildData where
  id : Nat
  members : List Member
deriving DecidableEq

/-- An inbound message as `handle_message_event` reads it. -/
structure InMsg where
  content : String
  authorBot : Bool
  isDM : Bool
  authorId : Nat
  authorDisplay : String
  guild : Option GuildData

/-- One outward effect of the handler: a plain `channel.send` text, an
embed whose image is a GIF URL, the help embed, or an `add_reaction`. -/
inductive Output where
  | message (content : String)
  | embedImage (url : String)
  | helpEmbed
  | reaction (emoji : String)
deriving DecidableEq

/-- The process-wide mutable state of fun.py that the handler touches:
`_COOLDOWNS` (default 0.0 via `dict.get`), `_RECENT_GIFS` (default `[]`),
and `_TENOR_CACHE` (read and written only by `fetch_tenor_gifs_async`,
which the message pipeline never calls). -/
structure BotState where
  cooldowns : Nat × String → ℚ
  recent : Nat → List String
  tenorCache : String → Option (ℚ × List String)

/-! ## Module-level validation pass over FALLBACK_GIFS -/

/-- Accumulating dedup of the validation pass: `if u and u not in uniq:
uniq.append(u)`. -/
def dedupeNonEmpty : List String → List String → List String
  | acc, [] => acc
  | acc, u :: rest =>
    dedupeNonEmpty (if u ≠ "" ∧ ¬ acc.contains u then acc ++ [u] else acc) rest

/-- Padding loop of the validation pass: `while len(uniq) < 10 and i <
len(GENERIC_FALLBACK_GIFS)`, appending each generic not already present. -/
def padLoop : List String → List String → List String
  | uniq, [] => uniq
  | uniq, g :: rest =>
    if uniq.length < 10 then
      (if uniq.contains g then padLoop uniq rest else padLoop (uniq ++ [g]) rest)
    else uniq

/-- `FALLBACK_GIFS` after the module-level validation pass (dedup, pad to
ten from the generic list, then the no-op slice `uniq[:max(10, len(uniq))]`). -/
def FALLBACK_GIFS (generics : List String) (a : String) : List String :=
  if ACTIONS.contains a then
    let uniq := padLoop (dedupeNonEmpty [] (FALLBACK_GIFS_RAW a)) generics
    uniq.take (max 10 uniq.length)
  else []

/-! ## Cooldowns (fun.py lines 501-510) -/

/-- Embeds `get_cooldown_remaining`; `now` replaces the internal
`time.time()` call. -/
def get_cooldown_remaining (cooldownSeconds : ℚ) (cd : Nat × String → ℚ)
    (now : ℚ) (user_id : Nat) (action : String) : ℚ :=
  let last := cd (user_id, action)
  let elapsed := now - last
  if elapsed < cooldownSeconds then cooldownSeconds - elapsed else 0

/-- Embeds `set_cooldown`. -/
def set_cooldown (cd : Nat × String → ℚ) (now : ℚ) (user_id : Nat)
    (action : String) : Nat × String → ℚ :=
  fun k => if k = (user_id, action) then now else cd k

/-- The denial text of `send_owo_style` for a user still on cooldown. -/
def cooldown_message (user_id : Nat) (remSecs : ℤ) (action : String) : String :=
  "⏳ <@" ++ toString user_id ++ ">, wait `" ++ toString remSecs ++
    "`s before using `" ++ action ++ "` again."

/-! ## Recent-GIF tracker (fun.py lines 536-547) -/

/-- The per-list update performed by `add_recent_gif`: move-to-front
insert, then truncate past the retention cap. -/
def addList (cap : Nat) (arr : List String) (gif_url : String) : List String :=
  let arr := gif_url :: arr.erase gif_url
  if cap < arr.length then arr.take cap else arr

/-- Embeds `add_recent_gif`: applies `addList` to the guild entry of
`_RECENT_GIFS` (missing keys read as `[]`). -/
def add_recent_gif (cap : Nat) (store : Nat → List String) (guild_id : Nat)
    (gif_url : String) : Nat → List String :=
  fun k => if k = guild_id then addList cap (store guild_id) gif_url else store k

/-- Embeds `get_recent_gifs`. -/
def get_recent_gifs (store : Nat → List String) (guild_id : Nat) : List String :=
  store guild_id

/-! ## GIF selection (fun.py lines 1009-1072) -/

/-- The dedup-and-trim loop of `choose_gif_for_action` over the fetched
URLs: keep first occurrences of nonempty URLs, stop once
`MAX_GIF_CANDIDATES` are collected. -/
def dedupeTrim (maxC : Nat) : List String → List String → List String
  | acc, [] => acc
  | acc, u :: rest =>
    let acc := if u ≠ "" ∧ ¬ acc.contains u then acc ++ [u] else acc
    if maxC ≤ acc.length then acc else dedupeTrim maxC acc rest

/-- The candidate list `choose_gif_for_action` selects from: the
deduplicated fetched URLs, replaced by `FALLBACK_GIFS[action]` when fewer
than three survive. -/
def resolvedCandidates (cfg : Config) (fetched : List String) (action : String) :
    List String :=
  let gifs := dedupeTrim cfg.maxGifCandidates [] fetched
  if gifs = [] ∨ gifs.length < 3 then FALLBACK_GIFS cfg.generics action else gifs

/-- Embeds `choose_gif_for_action`: prefer the first candidate not in the
guild recent list; if all are recent, rotate to the first candidate (or
the first generic GIF when there are no candidates at all); record the
choice in the recent store. -/
def choose_gif_for_action (cfg : Config) (fetched : List String)
    (store : Nat → List String) (guild_id : Nat) (action : String) :
    Option String × (Nat → List String) :=
  let gifs := resolvedCandidates cfg fetched action
  let recent := get_recent_gifs store guild_id
  match gifs.find? (fun u => !(recent.contains u)) with
  | some u => (some u, add_recent_gif cfg.recentCap store guild_id u)
  | none =>
    let chosen := match gifs with
      | u :: _ => some u
      | [] => cfg.generics.head?
    match chosen with
    | some c => (some c, add_recent_gif cfg.recentCap store guild_id c)
    | none => (none, store)

/-! ## Captions (fun.py lines 515-534 and 1074-1091) -/

/-- The flavor stop-list of `owoify_caption`. -/
def FLAVOR_TOKENS : List String :=
  ["uwu", "owo", "nya", "♥", "💖", "✨"]

/-- True when the lowercased caption already contains a flavor token. -/
def hasFlavorToken (lower : String) : Bool :=
  FLAVOR_TOKENS.any (fun t => strContainsSub lower t)

/-- Embeds `owoify_caption`; `r` is the `random.random()` draw and
`suffixIdx` the `random.choice` draw.  A caption that already contains a
flavor token is returned (compacted) before the decoration and the
280-character truncation are reached. -/
def owoify_caption (r : ℚ) (suffixIdx : Nat) (caption : String) : String :=
  let caption := compact caption
  let lower := toLowerStr caption
  if hasFlavorToken lower then caption
  else
    let caption :=
      if r < 35 / 100 then caption ++ " " ++ pick CUTE_SUFFIXES suffixIdx
      else if r < 65 / 100 then caption ++ " ❤️"
      else caption
    if 280 < caption.length then String.mk (caption.data.take 277) ++ "..." else caption

/-- Embeds `build_header_line`; `endIdx` is the `random.choice` draw over
the fixed endings list. -/
def build_header_line (endIdx : Nat) (author_name action target_name : String) :
    String :=
  let endings := ["", ".-.", ">w<", ".w.", " owo", " uwu", " ^_^", " ._.", "-.-"]
  compact (author_name ++ " " ++ action ++ "s " ++ target_name ++ " " ++ pick endings endIdx)

/-- Embeds `generate_local_caption`; the `random` draws are the explicit
`tIdx`, `sIdx`, `r1`, `r2` parameters and the `owoify_caption` draws. -/
def generate_local_caption (tIdx sIdx : Nat) (r1 r2 rOwo : ℚ) (owoIdx : Nat)
    (action author target : String) : String :=
  let templates := CAPTION_TEMPLATES action
  if templates = [] then
    let basic := author ++ " " ++ action ++ "s " ++ target
    if r1 < 2 / 5 then basic ++ " " ++ pick CUTE_SUFFIXES sIdx else basic
  else
    let template := pick templates tIdx
    let suffix := if r2 < 35 / 100 then pick CUTE_SUFFIXES sIdx else ""
    let out := pyFormat template author target suffix
    let out := compact out
    owoify_caption rOwo owoIdx out


/-! ## Member resolution (fun.py lines 973-1007) -/

/-- Anchored match of `MENTION_RE` (`<@!?(?P<id>\d+)>`) against the start
of the token, returning the captured id. -/
def parseMentionId (t : String) : Option Nat :=
  match t.data with
  | '<' :: '@' :: rest =>
    let rest := match rest with
      | '!' :: r => r
      | r => r
    let ds := rest.takeWhile Char.isDigit
    if ds ≠ [] ∧ (rest.drop ds.length).head? = some '>' then some (digitsVal ds)
    else none
  | _ => none

/-- Embeds `guild.get_member(uid)` over our member list. -/
def get_member (g : GuildData) (uid : Nat) : Option Member :=
  g.members.find? (fun m => m.id == uid)

/-- Embeds `resolve_member`: strip the token, try the mention form, then a
bare numeric id, then one pass over the member list accepting a
case-insensitive match of name#discriminator, display name, or username. -/
def resolve_member (guild : Option GuildData) (token : String) : Option Member :=
  match guild with
  | none => none
  | some g =>
    let token := pyStrip token
    let byMention :=
      match parseMentionId token with
      | some uid => get_member g uid
      | none => none
    match byMention with
    | some m => some m
    | none =>
      let byId := if isDigits token then get_member g (digitsVal token.data) else none
      match byId with
      | some m => some m
      | none =>
        let lowered := toLowerStr token
        g.members.find? (fun mem =>
          toLowerStr (mem.name ++ "#" ++ mem.discriminator) == lowered ||
          toLowerStr mem.display_name == lowered ||
          toLowerStr mem.name == lowered)

/-! ## Message parsing (fun.py lines 482-492) -/

/-- Case-insensitive anchored literal match, returning the rest of the
input (the action tokens and `dso` are ASCII lowercase in the patterns). -/
def stripLiteralCI : List Char → List Char → Option (List Char)
  | [], s => some s
  | _ :: _, [] => none
  | p :: ps, c :: cs => if p.toLower = c.toLower then stripLiteralCI ps cs else none

/-- The optional `(?P<prefix>dso\s+)?` group: `dso` followed by one or
more whitespace characters (greedy, and the following action token never
starts with whitespace). -/
def parseDsoHead (s : List Char) : Option (List Char) :=
  match stripLiteralCI "dso".data s with
  | some rest =>
    match rest.head? with
    | some c => if c.isWhitespace then some (rest.dropWhile Char.isWhitespace) else none
    | none => none
  | none => none

/-- The target alternation `<@!?\d+>|\d+|[^\s]+` of both action patterns,
matched at the start of `s`; returns the matched text. -/
def parseTarget (s : List Char) : Option String :=
  let alt1 : Option String :=
    match s with
    | '<' :: '@' :: rest =>
      let bang := rest.head? = some '!'
      let rest2 := if bang then rest.drop 1 else rest
      let ds := rest2.takeWhile Char.isDigit
      if ds ≠ [] ∧ (rest2.drop ds.length).head? = some '>' then
        some (String.mk ('<' :: '@' :: (if bang then ['!'] else []) ++ ds ++ ['>']))
      else none
    | _ => none
  match alt1 with
  | some t => some t
  | none =>
    let ds := s.takeWhile Char.isDigit
    if ds ≠ [] then some (String.mk ds)
    else
      let ns := s.takeWhile (fun c => ¬ c.isWhitespace)
      if ns ≠ [] then some (String.mk ns) else none

/-- The action alternation of `ACTION_PATTERN_NO_SPACE` (`requireAt =
true`: a literal `@` separator) and `ACTION_PATTERN_SPACE` (`requireAt =
false`: `\s+`), tried per alternative in pattern order at a fixed
position, exactly as the regex engine backtracks; yields the lowercased
action group and the target group. -/
def tryActionList (requireAt : Bool) (s : List Char) :
    List String → Option (String × String)
  | [] => none
  | a :: rest =>
    let attempt : Option (String × String) :=
      match stripLiteralCI a.data s with
      | some afterA =>
        let afterSep : Option (List Char) :=
          if requireAt then
            match afterA with
            | '@' :: r => some r
            | _ => none
          else
            match afterA.head? with
            | some c =>
              if c.isWhitespace then some (afterA.dropWhile Char.isWhitespace) else none
            | none => none
        match afterSep with
        | some rest2 =>
          match parseTarget rest2 with
          | some t => some (a, t)
          | none => none
        | none => none
      | none => none
    match attempt with
    | some r => some r
    | none => tryActionList requireAt s rest

/-- Anchored match of `ACTION_PATTERN_NO_SPACE` / `ACTION_PATTERN_SPACE`
(`re.match`): the optional `dso` prefix is tried first, and on failure the
engine retries without it. -/
def matchActionPattern (requireAt : Bool) (content : String) :
    Option (String × String) :=
  let s := content.data
  let withHead :=
    match parseDsoHead s with
    | some rest => tryActionList requireAt rest ACTIONS
    | none => none
  match withHead with
  | some r => some r
  | none => tryActionList requireAt s ACTIONS

/-- Anchored full match of `HELP_PATTERN` (`^dso\s+f\.?c\.?$`) against the
lowercased content. -/
def helpMatchB (lc : String) : Bool :=
  match stripLiteralCI "dso".data lc.data with
  | none => false
  | some rest =>
    match rest.head? with
    | none => false
    | some c =>
      if c.isWhitespace then
        let rest := rest.dropWhile Char.isWhitespace
        match rest with
        | 'f' :: rest2 =>
          let rest3 := if rest2.head? = some '.' then rest2.drop 1 else rest2
          match rest3 with
          | 'c' :: rest4 =>
            let rest5 := if rest4.head? = some '.' then rest4.drop 1 else rest4
            rest5.isEmpty
          | _ => false
        | _ => false
      else false

/-! ## Dispatch (fun.py lines 1093-1186 and 1215-1263) -/

/-- The single action-step `handle_message_event` dispatches for a
content: the no-space pattern is tried first; if it matches but its target
does not resolve, control falls through to the spaced pattern. -/
def dispatchedCommand (guild : Option GuildData) (content : String) :
    Option (String × Member) :=
  let first :=
    match matchActionPattern true content with
    | some (a, t) => (resolve_member guild t).map (fun m => (a, m))
    | none => none
  match first with
  | some r => some r
  | none =>
    match matchActionPattern false content with
    | some (a, t) => (resolve_member guild t).map (fun m => (a, m))
    | none => none

/-- Embeds `send_owo_style`: cooldown gate (with its denial message),
cooldown record, GIF choice, caption and header, the text send, the embed
send, the redundant `add_recent_gif` call, and the flair reactions. -/
def send_owo_style (cfg : Config) (o : Oracle) (now : ℚ) (st : BotState)
    (guild_id author_id : Nat) (author_name target_name action : String) :
    BotState × List Output :=
  let rem := get_cooldown_remaining cfg.cooldownSeconds st.cooldowns now author_id action
  if 0 < rem then
    (st, [Output.message (cooldown_message author_id (pyInt rem) action)])
  else
    let st := { st with cooldowns := set_cooldown st.cooldowns now author_id action }
    let chosenStore := choose_gif_for_action cfg o.fetched st.recent guild_id action
    let chosen := chosenStore.1
    let st := { st with recent := chosenStore.2 }
    let caption :=
      generate_local_caption o.tIdx o.sIdx o.r1 o.r2 o.rOwo o.owoIdx action
        author_name target_name
    let header := build_header_line o.endIdx author_name action target_name
    let textOut := Output.message ("**" ++ header ++ "**\n" ++ caption)
    let imageOut := match chosen with
      | some u => [Output.embedImage u]
      | none => []
    -- fun.py line 1166 calls add_recent_gif again with `chosen`; when
    -- `chosen` is a URL this is a move-to-front no-op re-insert, and the
    -- `None` case cannot arise for actions whose fallback list is nonempty.
    let st := match chosen with
      | some u => { st with recent := add_recent_gif cfg.recentCap st.recent guild_id u }
      | none => st
    let reacts := ((ACTION_REACTIONS action).take cfg.maxReactions).map Output.reaction
    (st, textOut :: imageOut ++ reacts)

/-- Embeds `handle_message_event`: the bot/DM/empty-content guards, the
help shortcut, then the two action patterns with member resolution and a
single `send_owo_style` dispatch. -/
def handle_message_event (cfg : Config) (o : Oracle) (now : ℚ) (msg : InMsg)
    (st : BotState) : BotState × List Output :=
  if msg.content = "" then (st, [])
  else if msg.authorBot then (st, [])
  else if msg.isDM then (st, [])
  else
    let content := pyStrip msg.content
    let lc := toLowerStr content
    if helpMatchB lc then (st, [Output.helpEmbed])
    else
      match dispatchedCommand msg.guild content with
      | some (action, member) =>
        send_owo_style cfg o now st ((msg.guild.map GuildData.id).getD 0)
          msg.authorId msg.authorDisplay member.display_name action
      | none => (st, [])

/-! ## Iteration harnesses used by the theorems -/

/-- The admission-and-record loop of `send_owo_style` (lines 1104-1111)
iterated over a list of invocation timestamps for one user and action;
`true` marks an invocation that passes the rate-limit gate. -/
def runInvocations (cs : ℚ) (u : Nat) (a : String) :
    (Nat × String → ℚ) → List ℚ → List Bool
  | _, [] => []
  | cd, t :: ts =>
    if 0 < get_cooldown_remaining cs cd t u a then
      false :: runInvocations cs u a cd ts
    else
      true :: runInvocations cs u a (set_cooldown cd t u a) ts

/-- A sequence of recent-GIF updates, each a guild id with the stored URL
(`add_recent_gif` is the only operation that writes `_RECENT_GIFS`, both
directly and from inside `choose_gif_for_action` and `send_owo_style`). -/
def applyRecentOps (cap : Nat) : (Nat → List String) → List (Nat × String) →
    Nat → List String
  | st, [] => st
  | st, (g, u) :: ops => applyRecentOps cap (add_recent_gif cap st g u) ops

/-- The empty recent store (the module starts with `_RECENT_GIFS = {}`). -/
def emptyRecent : Nat → List String := fun _ => []

/-- First-occurrence deduplication, the specification-side description of
the recent list: each URL appears once, in order of most recent addition. -/
def nubKeepFirst : List String → List String
  | [] => []
  | x :: xs => x :: (nubKeepFirst xs).filter (fun y => y ≠ x)

/-! ## Specification-side definitions and sample instances used by the theorems -/

/-- A sample configuration: the spec example cooldown of five seconds, a
retention cap of ten, the usual candidate cap, no generic GIFs configured,
and two reactions. -/
def cfgEx : Config := ⟨5, 10, 25, [], 2⟩

/-- A sample oracle: no Tenor results and fixed random draws. -/
def oEx : Oracle := ⟨[], 0, 0, 1, 1, 1, 0, 0⟩

/-- The pristine process state (`_COOLDOWNS`, `_RECENT_GIFS` and
`_TENOR_CACHE` all empty). -/
def stEmpty : BotState := ⟨fun _ => 0, fun _ => [], fun _ => none⟩

/-- A guild with a single member of id 111 for the chain-parsing claim. -/
def guildC1 : GuildData := ⟨7, [⟨111, "u1", "0001", "U1"⟩]⟩

/-- The sole member of `guildC1`. -/
def memC1 : Member := ⟨111, "u1", "0001", "U1"⟩

/-- The chain-syntax message of the claim, sent by a human in a guild. -/
def msgC1 : InMsg := ⟨"hug <@111> then pat then slap", false, false, 5, "Me", some guildC1⟩

/-- A bot-authored message, for the frame-condition witness. -/
def msgBotEx : InMsg := ⟨"hug <@111>", true, false, 5, "Me", none⟩

/-- Specification-side stage one: explicit mention syntax. -/
def memberByMention (g : GuildData) (t : String) : Option Member :=
  match parseMentionId t with
  | some uid => get_member g uid
  | none => none

/-- Specification-side stage two: bare numeric id. -/
def memberByNumericId (g : GuildData) (t : String) : Option Member :=
  if isDigits t then get_member g (digitsVal t.data) else none

/-- Specification-side stage three: one case-insensitive pass over the
member list in guild order, accepting the first member whose
name#discriminator tag, display name, or username equals the token; a tag
match on a later member never beats a name match on an earlier one. -/
def memberByAnyName (g : GuildData) (t : String) : Option Member :=
  g.members.find? (fun mem =>
    toLowerStr (mem.name ++ "#" ++ mem.discriminator) == toLowerStr t ||
    toLowerStr mem.display_name == toLowerStr t ||
    toLowerStr mem.name == toLowerStr t)

/-- The amended resolution order: mention, then numeric id, then the
single combined name pass; first stage to produce a member wins, and if
none does the result is no member. -/
def resolveMemberSpec (g : GuildData) (token : String) : Option Member :=
  let t := pyStrip token
  (memberByMention g t).orElse fun _ =>
    (memberByNumericId g t).orElse fun _ => memberByAnyName g t

/-- Specification-side selection rule: the first candidate not in the
recent list, and the first candidate outright when every candidate is
recent. -/
def selectedGif (cfg : Config) (fetched : List String) (recent : List String)
    (action : String) : String :=
  ((resolvedCandidates cfg fetched action).find?
      (fun u => !(recent.contains u))).getD
    (resolvedCandidates cfg fetched action).headI

/-- A whitespace-free, nonempty token (the shape of every token produced
by the whitespace tokenizer). -/
def goodTok (t : List Char) : Prop :=
  t ≠ [] ∧ ∀ c ∈ t, c.isWhitespace = false

/-- The first character, if any, is not whitespace. -/
def headNotWs (l : List Char) : Bool :=
  match l.head? with
  | some c => !c.isWhitespace
  | none => true

/-- The last character, if any, is not whitespace. -/
def lastNotWs (l : List Char) : Bool :=
  match l.getLast? with
  | some c => !c.isWhitespace
  | none => true

/-- Whitespace-normal form of a character list: no leading or trailing
whitespace, no two adjacent whitespace characters, and every whitespace
character is a plain space — exactly the forms fixed by `compact`. -/
def NormChars (l : List Char) : Prop :=
  headNotWs l = true ∧ lastNotWs l = true ∧
    List.Chain' (fun a b => ¬ (a.isWhitespace = true ∧ b.isWhitespace = true)) l ∧
    ∀ c ∈ l, c.isWhitespace = true → c = ' '

/-- Whitespace-normal form of a string. -/
def NormalizedWs (s : String) : Prop := NormChars s.data

/-- The decoration step of `owoify_caption` (the optional cute suffix or
heart), named so the theorems can speak about the pre-truncation text. -/
def owoifyDecorated (r : ℚ) (i : Nat) (c : String) : String :=
  if r < 35 / 100 then c ++ " " ++ pick CUTE_SUFFIXES i
  else if r < 65 / 100 then c ++ " ❤️"
  else c

/-- The compacted formatted template text that `generate_local_caption`
produces before the owoify step, for an action with templates. -/
def composedRaw (tIdx sIdx : Nat) (r2 : ℚ) (action author target : String) : String :=
  compact (pyFormat (pick (CAPTION_TEMPLATES action) tIdx) author target
    (if r2 < 35 / 100 then pick CUTE_SUFFIXES sIdx else ""))

/-! ## Helper lemmas -/

lemma leadsWith_append_self (p r : List Char) : leadsWith p (p ++ r) = true := by
  induction p with
  | nil => rfl
  | cons c cs ih => simp [leadsWith, ih]

lemma strContainsSub_of_data (s t : String) (pre post : List Char)
    (h : s.data = pre ++ (t.data ++ post)) : strContainsSub s t = true := by
  unfold strContainsSub
  rw [List.any_eq_true]
  refine ⟨pre.length, List.mem_range.mpr ?_, ?_⟩
  · have hlen := congrArg List.length h
    rw [List.length_append, List.length_append] at hlen
    omega
  · rw [h, List.drop_left]
    exact leadsWith_append_self _ _

lemma addList_head (cap : Nat) (hcap : 1 ≤ cap) (arr : List String) (u : String) :
    (addList cap arr u).head? = some u := by
  obtain ⟨m, rfl⟩ : ∃ m, cap = m + 1 := ⟨cap - 1, by omega⟩
  show (if m + 1 < (u :: arr.erase u).length then
          List.take (m + 1) (u :: arr.erase u) else u :: arr.erase u).head? = some u
  by_cases h : m + 1 < (u :: arr.erase u).length
  · rw [if_pos h, List.take_succ_cons]
    rfl
  · rw [if_neg h]
    rfl

lemma addList_length_le (cap : Nat) (arr : List String) (u : String) :
    (addList cap arr u).length ≤ cap := by
  show (if cap < (u :: arr.erase u).length then
          List.take cap (u :: arr.erase u) else u :: arr.erase u).length ≤ cap
  by_cases h : cap < (u :: arr.erase u).length
  · rw [if_pos h]
    exact List.length_take_le _ _
  · rw [if_neg h]
    omega

lemma add_recent_gif_apply_self (cap : Nat) (store : Nat → List String)
    (gid : Nat) (u : String) :
    add_recent_gif cap store gid u gid = addList cap (store gid) u := by
  simp [add_recent_gif]

lemma add_recent_gif_apply_other (cap : Nat) (store : Nat → List String)
    (gid k : Nat) (u : String) (h : k ≠ gid) :
    add_recent_gif cap store gid u k = store k := by
  simp [add_recent_gif, h]

lemma choose_gif_store_of_some (cfg : Config) (fetched : List String)
    (store : Nat → List String) (gid : Nat) (a : String) (u : String)
    (h : (choose_gif_for_action cfg fetched store gid a).1 = some u) :
    (choose_gif_for_action cfg fetched store gid a).2 =
      add_recent_gif cfg.recentCap store gid u := by
  unfold choose_gif_for_action at h ⊢
  rcases hf : (resolvedCandidates cfg fetched a).find?
      (fun v => !((get_recent_gifs store gid).contains v)) with _ | w
  · rcases hc : resolvedCandidates cfg fetched a with _ | ⟨c, cs⟩
    · rw [hc] at hf
      rcases hg : cfg.generics.head? with _ | g
      · simp only [hc, hf, hg] at h
        exact Option.noConfusion h
      · simp only [hc, hf, hg, Option.some.injEq] at h ⊢
        rw [h]
    · rw [hc] at hf
      simp only [hc, hf, Option.some.injEq] at h ⊢
      rw [h]
  · simp only [hf, Option.some.injEq] at h ⊢
    rw [h]

/-! ## Example instances used by witnesses and counterexamples -/

/-! ## C10: guard frame condition -/

/-- C10: a message that is bot-authored, in a DM, or has empty content
makes `handle_message_event` return with the state untouched and no
message, reaction or embed emitted. -/
theorem C10_theorem (cfg : Config) (o : Oracle) (now : ℚ) (msg : InMsg)
    (st : BotState)
    (h : msg.content = "" ∨ msg.authorBot = true ∨ msg.isDM = true) :
    handle_message_event cfg o now msg st = (st, []) := by
  unfold handle_message_event
  rcases h with h | h | h <;> simp [h]

/-- C10 witness: a concrete bot-authored message is ignored. -/
theorem C10_witness :
    handle_message_event cfgEx oEx 0 msgBotEx stEmpty = (stEmpty, []) :=
  C10_theorem cfgEx oEx 0 msgBotEx stEmpty (Or.inr (Or.inl rfl))

/-! ## C3: no burst limiter exists -/

/-- C3 counterexample: with the spec example cooldown of 5 s, five
invocations inside an 8-second window do not all pass (only the first
does), and with cooldown 0 a sixth invocation inside an 8-second window is
allowed rather than denied: the code has no burst limit at all. -/
theorem C3_counterexample :
    runInvocations 5 1 "hug" (fun _ => 0) [100, 101, 102, 103, 104] =
      [true, false, false, false, false] ∧
    runInvocations 0 1 "hug" (fun _ => 0) [100, 101, 102, 103, 104, 105] =
      [true, true, true, true, true, true] := by
  constructor <;> norm_num [runInvocations, get_cooldown_remaining, set_cooldown]

/-- C3 amended: admission depends only on the per-user-and-action
cooldown; with the cooldown at 0, every invocation in any wall-clock
ordered sequence (no matter how dense) is allowed. -/
theorem C3_theorem (u : Nat) (a : String) (ts : List ℚ) (cd : Nat × String → ℚ)
    (h : List.Chain' (· ≤ ·) (cd (u, a) :: ts)) :
    runInvocations 0 u a cd ts = List.replicate ts.length true := by
  induction ts generalizing cd with
  | nil => rfl
  | cons t ts ih =>
    have h1 : cd (u, a) ≤ t := (List.chain'_cons.mp h).1
    have h2 : List.Chain' (· ≤ ·) (t :: ts) := (List.chain'_cons.mp h).2
    have hrem : get_cooldown_remaining 0 cd t u a = 0 := by
      unfold get_cooldown_remaining
      have hx : ¬ (t - cd (u, a) < 0) := by linarith
      simp [hx]
    unfold runInvocations
    rw [hrem]
    have hset : set_cooldown cd t u a (u, a) = t := by simp [set_cooldown]
    simp only [lt_self_iff_false, if_false]
    rw [List.length_cons, List.replicate_succ]
    exact congrArg (true :: ·) (ih _ (by rwa [hset]))

/-- C3 amended witness: six rapid invocations with cooldown 0 are all
allowed. -/
theorem C3_witness :
    runInvocations 0 1 "hug" (fun _ => 0) [100, 101, 102, 103, 104, 105] =
      List.replicate 6 true :=
  C3_theorem 1 "hug" [100, 101, 102, 103, 104, 105] (fun _ => 0)
    (by simp only [List.chain'_cons, List.chain'_singleton, and_true]; norm_num)

/-! ## Branch characterizations of send_owo_style -/

lemma send_owo_style_denied (cfg : Config) (o : Oracle) (now : ℚ) (st : BotState)
    (gid u : Nat) (an tn a : String)
    (h : 0 < get_cooldown_remaining cfg.cooldownSeconds st.cooldowns now u a) :
    send_owo_style cfg o now st gid u an tn a =
      (st, [Output.message (cooldown_message u
        (pyInt (get_cooldown_remaining cfg.cooldownSeconds st.cooldowns now u a)) a)]) := by
  unfold send_owo_style
  rw [if_pos h]

lemma send_owo_style_allowed_cooldowns (cfg : Config) (o : Oracle) (now : ℚ)
    (st : BotState) (gid u : Nat) (an tn a : String)
    (h : ¬ 0 < get_cooldown_remaining cfg.cooldownSeconds st.cooldowns now u a) :
    (send_owo_style cfg o now st gid u an tn a).1.cooldowns =
      set_cooldown st.cooldowns now u a := by
  unfold send_owo_style
  rw [if_neg h]
  rcases hch : (choose_gif_for_action cfg o.fetched st.recent gid a).1 with _ | v <;>
    simp [hch]

lemma send_owo_style_allowed_outputs (cfg : Config) (o : Oracle) (now : ℚ)
    (st : BotState) (gid u : Nat) (an tn a : String)
    (h : ¬ 0 < get_cooldown_remaining cfg.cooldownSeconds st.cooldowns now u a) :
    (send_owo_style cfg o now st gid u an tn a).2 =
      Output.message ("**" ++ build_header_line o.endIdx an a tn ++ "**\n" ++
          generate_local_caption o.tIdx o.sIdx o.r1 o.r2 o.rOwo o.owoIdx a an tn) ::
        ((match (choose_gif_for_action cfg o.fetched st.recent gid a).1 with
          | some v => [Output.embedImage v]
          | none => []) ++
         ((ACTION_REACTIONS a).take cfg.maxReactions).map Output.reaction) := by
  unfold send_owo_style
  rw [if_neg h]
  rcases hch : (choose_gif_for_action cfg o.fetched st.recent gid a).1 with _ | v <;>
    simp [hch]

/-! ## C2: cooldown admission -/

/-- C2 amended: the cooldown is keyed per user AND action.  With the
cooldown at 5 seconds and the user having last used action `a` at `t1`, an
invocation of the same action at `t2` with `t2 - t1 < 5` is denied without
state change, with a message carrying the integer remaining seconds; an
invocation 5 or more seconds later is admitted and records the new
timestamp; recording never disturbs other actions of the same user. -/
theorem C2_theorem (cfg : Config) (o : Oracle) (t1 t2 : ℚ) (st : BotState)
    (gid u : Nat) (an tn a : String) (hcs : cfg.cooldownSeconds = 5) :
    (t2 - t1 < 5 →
      send_owo_style cfg o t2
          { st with cooldowns := set_cooldown st.cooldowns t1 u a } gid u an tn a =
        ({ st with cooldowns := set_cooldown st.cooldowns t1 u a },
         [Output.message (cooldown_message u (pyInt (5 - (t2 - t1))) a)]) ∧
      strContainsSub (cooldown_message u (pyInt (5 - (t2 - t1))) a)
        (toString (pyInt (5 - (t2 - t1)))) = true) ∧
    (5 ≤ t2 - t1 →
      (send_owo_style cfg o t2
          { st with cooldowns := set_cooldown st.cooldowns t1 u a } gid u an
          tn a).1.cooldowns (u, a) = t2) ∧
    (∀ b, b ≠ a → set_cooldown st.cooldowns t1 u a (u, b) = st.cooldowns (u, b)) := by
  have hget : get_cooldown_remaining cfg.cooldownSeconds
      ({ st with cooldowns := set_cooldown st.cooldowns t1 u a } : BotState).cooldowns
      t2 u a = if t2 - t1 < 5 then 5 - (t2 - t1) else 0 := by
    unfold get_cooldown_remaining
    rw [hcs]
    simp [set_cooldown]
  refine ⟨?_, ?_, ?_⟩
  · intro h
    have h0 : 0 < get_cooldown_remaining cfg.cooldownSeconds
        ({ st with cooldowns := set_cooldown st.cooldowns t1 u a } : BotState).cooldowns
        t2 u a := by
      rw [hget, if_pos h]
      linarith
    refine ⟨?_, ?_⟩
    · rw [send_owo_style_denied cfg o t2 _ gid u an tn a h0, hget, if_pos h]
    · exact strContainsSub_of_data _ _ ("⏳ <@" ++ toString u ++ ">, wait `").data
        ("`s before using `" ++ a ++ "` again.").data
        (by simp [cooldown_message, String.data_append, List.append_assoc])
  · intro h
    have h0 : ¬ 0 < get_cooldown_remaining cfg.cooldownSeconds
        ({ st with cooldowns := set_cooldown st.cooldowns t1 u a } : BotState).cooldowns
        t2 u a := by
      rw [hget, if_neg (not_lt.mpr h)]
      exact lt_irrefl 0
    rw [send_owo_style_allowed_cooldowns cfg o t2 _ gid u an tn a h0]
    simp [set_cooldown]
  · intro b hb
    simp [set_cooldown, Prod.ext_iff, hb]

/-- C2 witness: at cooldown 5, a repeat of `hug` three seconds after the
recorded use is denied with a message containing the digit 2, and a repeat
five seconds after is admitted and re-recorded. -/
theorem C2_witness :
    strContainsSub (cooldown_message 1 (pyInt (5 - ((103 : ℚ) - 100))) "hug")
        (toString (pyInt (5 - ((103 : ℚ) - 100)))) = true ∧
    (send_owo_style cfgEx oEx 105
        { stEmpty with cooldowns := set_cooldown stEmpty.cooldowns 100 1 "hug" }
        9 1 "A" "B" "hug").1.cooldowns (1, "hug") = 105 := by
  have h1 := C2_theorem cfgEx oEx 100 103 stEmpty 9 1 "A" "B" "hug" rfl
  have h2 := C2_theorem cfgEx oEx 100 105 stEmpty 9 1 "A" "B" "hug" rfl
  exact ⟨(h1.1 (by norm_num)).2, h2.2.1 (by norm_num)⟩

/-- C2 counterexample: the claim reads the cooldown as per-user, but the
code keys it per user and action: one second after an admitted `hug`, the
same user invoking `pat` is not on cooldown (remaining 0) and the
invocation is admitted and recorded, not denied. -/
theorem C2_counterexample :
    get_cooldown_remaining 5 (set_cooldown stEmpty.cooldowns 100 1 "hug") 101 1 "pat" = 0 ∧
    (send_owo_style cfgEx oEx 101
        { stEmpty with cooldowns := set_cooldown stEmpty.cooldowns 100 1 "hug" }
        9 1 "A" "B" "pat").1.cooldowns (1, "pat") = 101 := by
  have hrem : get_cooldown_remaining 5
      (set_cooldown stEmpty.cooldowns 100 1 "hug") 101 1 "pat" = 0 := by
    unfold get_cooldown_remaining set_cooldown
    rw [if_neg (by decide : ¬ ((1, ("pat" : String)) = (1, ("hug" : String))))]
    norm_num [stEmpty]
  refine ⟨hrem, ?_⟩
  have h0 : ¬ 0 < get_cooldown_remaining cfgEx.cooldownSeconds
      ({ stEmpty with cooldowns := set_cooldown stEmpty.cooldowns 100 1 "hug" } : BotState).cooldowns
      101 1 "pat" := by
    show ¬ 0 < get_cooldown_remaining 5 (set_cooldown stEmpty.cooldowns 100 1 "hug") 101 1 "pat"
    rw [hrem]
    exact lt_irrefl 0
  rw [send_owo_style_allowed_cooldowns cfgEx oEx 101 _ 9 1 "A" "B" "pat" h0]
  simp [set_cooldown]

/-! ## C6: member resolution order -/

/-- C6 amended: `resolve_member` tries explicit mention syntax, then bare
numeric id, then a single combined pass over the member list that accepts
tag, display-name, or username matches together (case-insensitively); the
first stage producing a member wins and no match yields none.  There is no
separate tag-match phase running before the name phase. -/
theorem C6_theorem (g : GuildData) (token : String) :
    resolve_member (some g) token = resolveMemberSpec g token := by
  unfold resolve_member resolveMemberSpec memberByMention memberByNumericId memberByAnyName
    Option.orElse
  rcases hm : parseMentionId (pyStrip token) with _ | uid
  · simp only [hm]
    rcases hid : (if isDigits (pyStrip token) = true then
        get_member g (digitsVal (pyStrip token).data) else none) with _ | m2 <;>
      simp only [hid]
  · simp only [hm]
    rcases hg : get_member g uid with _ | m
    · simp only [hg]
      rcases hid : (if isDigits (pyStrip token) = true then
          get_member g (digitsVal (pyStrip token).data) else none) with _ | m2 <;>
        simp only [hid]
    · simp only [hg]

/-- C6 counterexample: the token "bob#0001" is exactly the tag of the
second member and not the tag of the first, yet resolution returns the
first member, whose display name matches — refuting tag-before-name
priority. -/
theorem C6_counterexample :
    resolve_member (some ⟨2, [⟨1, "alice", "9999", "bob#0001"⟩, ⟨2, "bob", "0001", "carol"⟩]⟩)
        "bob#0001" = some ⟨1, "alice", "9999", "bob#0001"⟩ ∧
    toLowerStr ("bob" ++ "#" ++ "0001") = "bob#0001" ∧
    toLowerStr ("alice" ++ "#" ++ "9999") ≠ "bob#0001" ∧
    (⟨1, "alice", "9999", "bob#0001"⟩ : Member) ≠ ⟨2, "bob", "0001", "carol"⟩ := by
  refine ⟨by decide, by decide, by decide, by decide⟩

/-! ## C4: selection and recency push -/

/-- C4: whenever the candidate list is non-empty, the resolver returns the
first candidate absent from the guild recent list (or the first candidate
if all are recent), pushes exactly that choice to the front of the guild
recent list via `add_recent_gif`, and the updated list starts with the
choice (cap permitting) and never exceeds the cap — the oldest entries are
dropped. -/
theorem C4_theorem (cfg : Config) (fetched : List String)
    (store : Nat → List String) (gid : Nat) (a : String)
    (h : resolvedCandidates cfg fetched a ≠ []) :
    (choose_gif_for_action cfg fetched store gid a).1 =
      some (selectedGif cfg fetched (store gid) a) ∧
    (choose_gif_for_action cfg fetched store gid a).2 =
      add_recent_gif cfg.recentCap store gid (selectedGif cfg fetched (store gid) a) ∧
    (1 ≤ cfg.recentCap →
      ((choose_gif_for_action cfg fetched store gid a).2 gid).head? =
        some (selectedGif cfg fetched (store gid) a)) ∧
    ((choose_gif_for_action cfg fetched store gid a).2 gid).length ≤ cfg.recentCap := by
  have hsel : (choose_gif_for_action cfg fetched store gid a).1 =
      some (selectedGif cfg fetched (store gid) a) := by
    unfold choose_gif_for_action selectedGif get_recent_gifs
    rcases hf : (resolvedCandidates cfg fetched a).find?
        (fun v => !((store gid).contains v)) with _ | w
    · rcases hc : resolvedCandidates cfg fetched a with _ | ⟨c, cs⟩
      · exact absurd hc h
      · rw [hc] at hf
        simp only [hc, hf, Option.getD_none, List.headI]
    · simp only [hf, Option.getD_some]
  have hstore := choose_gif_store_of_some cfg fetched store gid a _ hsel
  refine ⟨hsel, hstore, ?_, ?_⟩
  · intro hcap
    rw [hstore, add_recent_gif_apply_self]
    exact addList_head _ hcap _ _
  · rw [hstore, add_recent_gif_apply_self]
    exact addList_length_le _ _ _

/-- C4 witness: with no external results and an empty recent list for the
guild, resolving `hug` returns the first fallback GIF and pushes it. -/
theorem C4_witness :
    resolvedCandidates cfgEx [] "hug" ≠ [] ∧
    (choose_gif_for_action cfgEx [] (fun _ => []) 0 "hug").1 =
      some (selectedGif cfgEx [] [] "hug") :=
  ⟨by decide, (C4_theorem cfgEx [] (fun _ => []) 0 "hug" (by decide)).1⟩

/-! ## C7: total, tiered media resolution -/

/-- C7: media resolution is a total function (no exception path exists in
the embedding): it returns `none` exactly when the candidate tiers and the
generic shared list are all empty; any returned URL comes from the
resolved candidate tier or, when that tier is empty, is the head of the
generic shared list; and when the external fetch yields nothing the
candidate tier is exactly the per-action fallback list. -/
theorem C7_theorem (cfg : Config) (fetched : List String)
    (store : Nat → List String) (gid : Nat) (a : String) :
    ((choose_gif_for_action cfg fetched store gid a).1 = none ↔
      resolvedCandidates cfg fetched a = [] ∧ cfg.generics = []) ∧
    (∀ u, (choose_gif_for_action cfg fetched store gid a).1 = some u →
      u ∈ resolvedCandidates cfg fetched a ∨
        (resolvedCandidates cfg fetched a = [] ∧ cfg.generics.head? = some u)) ∧
    (dedupeTrim cfg.maxGifCandidates [] fetched = [] →
      resolvedCandidates cfg fetched a = FALLBACK_GIFS cfg.generics a) := by
  have htier : dedupeTrim cfg.maxGifCandidates [] fetched = [] →
      resolvedCandidates cfg fetched a = FALLBACK_GIFS cfg.generics a := by
    intro hd
    unfold resolvedCandidates
    rw [hd]
    simp
  have hmain : ((choose_gif_for_action cfg fetched store gid a).1 = none ↔
      resolvedCandidates cfg fetched a = [] ∧ cfg.generics = []) ∧
      (∀ u, (choose_gif_for_action cfg fetched store gid a).1 = some u →
        u ∈ resolvedCandidates cfg fetched a ∨
          (resolvedCandidates cfg fetched a = [] ∧ cfg.generics.head? = some u)) := by
    unfold choose_gif_for_action get_recent_gifs
    rcases hf : (resolvedCandidates cfg fetched a).find?
        (fun v => !((store gid).contains v)) with _ | w
    · rcases hc : resolvedCandidates cfg fetched a with _ | ⟨c, cs⟩
      · rw [hc] at hf
        rcases hg : cfg.generics.head? with _ | gg
        · have hgen : cfg.generics = [] := by
            cases hgg : cfg.generics with
            | nil => rfl
            | cons x xs => rw [hgg] at hg; exact Option.noConfusion hg
          constructor
          · simp only [hc, hf, hg]
            simp [hgen]
          · intro u hu
            simp only [hc, hf, hg] at hu
            exact Option.noConfusion hu
        · constructor
          · simp only [hc, hf, hg]
            constructor
            · intro hcontra
              exact Option.noConfusion hcontra
            · rintro ⟨-, hgen⟩
              rw [hgen] at hg
              exact Option.noConfusion hg
          · intro u hu
            simp only [hc, hf, hg, Option.some.injEq] at hu
            subst hu
            exact Or.inr ⟨rfl, rfl⟩
      · rw [hc] at hf
        constructor
        · simp only [hc, hf]
          constructor
          · intro hcontra
            exact Option.noConfusion hcontra
          · rintro ⟨hnil, -⟩
            exact List.noConfusion hnil
        · intro u hu
          simp only [hc, hf, Option.some.injEq] at hu
          subst hu
          exact Or.inl (List.mem_cons_self c cs)
    · have hw : w ∈ resolvedCandidates cfg fetched a := List.mem_of_find?_eq_some hf
      constructor
      · simp only [hf]
        constructor
        · intro hcontra
          exact Option.noConfusion hcontra
        · rintro ⟨hnil, -⟩
          rw [hnil] at hw
          exact absurd hw (List.not_mem_nil w)
      · intro u hu
        simp only [hf, Option.some.injEq] at hu
        exact Or.inl (hu ▸ hw)
  exact ⟨hmain.1, hmain.2, htier⟩

/-- C7 witness: with no Tenor results, no generics, and action `hug`, the
returned URL is a member of the resolved candidate tier. -/
theorem C7_witness :
    "https://media.giphy.com/media/l2QDM9Jnim1YVILXa/giphy.gif" ∈
        resolvedCandidates cfgEx [] "hug" ∨
      (resolvedCandidates cfgEx [] "hug" = [] ∧
        cfgEx.generics.head? =
          some "https://media.giphy.com/media/l2QDM9Jnim1YVILXa/giphy.gif") :=
  (C7_theorem cfgEx [] (fun _ => []) 0 "hug").2.1
    "https://media.giphy.com/media/l2QDM9Jnim1YVILXa/giphy.gif" (by decide)

/-! ## C5: no immediate repeats while the window is not exhausted -/

/-- C5: consecutive resolutions from a fixed candidate list for one guild
and action never repeat the previous URL as long as the recent history
already holds two distinct entries and the recency window is not exhausted
(some candidate is still not recent). -/
theorem C5_theorem (cfg : Config) (fetched : List String)
    (store : Nat → List String) (gid : Nat) (a : String) (u1 u2 : String)
    (hcap : 1 ≤ cfg.recentCap)
    (h1 : (choose_gif_for_action cfg fetched store gid a).1 = some u1)
    (_htwo : ∃ x ∈ (choose_gif_for_action cfg fetched store gid a).2 gid,
      ∃ y ∈ (choose_gif_for_action cfg fetched store gid a).2 gid, x ≠ y)
    (hfresh : ∃ v ∈ resolvedCandidates cfg fetched a,
      v ∉ (choose_gif_for_action cfg fetched store gid a).2 gid)
    (h2 : (choose_gif_for_action cfg fetched
        ((choose_gif_for_action cfg fetched store gid a).2) gid a).1 = some u2) :
    u2 ≠ u1 := by
  have hstore := choose_gif_store_of_some cfg fetched store gid a u1 h1
  have hhead : ((choose_gif_for_action cfg fetched store gid a).2 gid).head? = some u1 := by
    rw [hstore, add_recent_gif_apply_self]
    exact addList_head _ hcap _ _
  have hmem : u1 ∈ (choose_gif_for_action cfg fetched store gid a).2 gid := by
    rcases hl : (choose_gif_for_action cfg fetched store gid a).2 gid with _ | ⟨x, xs⟩
    · rw [hl] at hhead
      exact Option.noConfusion hhead
    · rw [hl] at hhead
      have hx : x = u1 := by simpa using hhead
      rw [← hx]
      exact List.mem_cons_self x xs
  obtain ⟨v, hv, hvn⟩ := hfresh
  have hfindSome : ((resolvedCandidates cfg fetched a).find?
      (fun w => !((get_recent_gifs
        ((choose_gif_for_action cfg fetched store gid a).2) gid).contains w))).isSome
        = true := by
    rw [List.find?_isSome]
    refine ⟨v, hv, ?_⟩
    simpa [get_recent_gifs] using hvn
  obtain ⟨w, hw⟩ := Option.isSome_iff_exists.mp hfindSome
  have hwp := List.find?_some hw
  have hwmem : w ∉ (choose_gif_for_action cfg fetched store gid a).2 gid := by
    simpa [get_recent_gifs] using hwp
  have hu2w : w = u2 := by
    revert h2
    generalize hst : (choose_gif_for_action cfg fetched store gid a).2 = st2 at hw ⊢
    intro h2
    unfold choose_gif_for_action at h2
    simp only [hw, Option.some.injEq] at h2
    exact h2
  intro heq
  apply hwmem
  rw [hu2w.trans heq]
  exact hmem

/-- C5 witness: for `hug` with one URL already recent, the first call
selects the first fallback GIF and the second call selects the second one,
which differs. -/
theorem C5_witness :
    "https://media.giphy.com/media/od5H3PmEG5EVq/giphy.gif" ≠
      "https://media.giphy.com/media/l2QDM9Jnim1YVILXa/giphy.gif" :=
  C5_theorem cfgEx []
    (fun _ => ["https://media.giphy.com/media/3oEjI6SIIHBdRxXI40/giphy.gif"]) 0 "hug"
    "https://media.giphy.com/media/l2QDM9Jnim1YVILXa/giphy.gif"
    "https://media.giphy.com/media/od5H3PmEG5EVq/giphy.gif"
    (by decide) (by decide) (by decide) (by decide) (by decide)

/-! ## C1: chain syntax is not parsed -/

/-- C1 amended: for the message text "hug <@111> then pat then slap" the
handler parses a single action-step — `hug` targeting the member whose id
the mention carries — via the spaced pattern; the trailing "then pat then
slap" text is ignored, and exactly that one step is dispatched. -/
theorem C1_theorem (g : GuildData) (m : Member) (hm : get_member g 111 = some m) :
    dispatchedCommand (some g) "hug <@111> then pat then slap" = some ("hug", m) := by
  have hns : matchActionPattern true "hug <@111> then pat then slap" = none := by decide
  have hsp : matchActionPattern false "hug <@111> then pat then slap" =
      some ("hug", "<@111>") := by decide
  have hstrip : pyStrip "<@111>" = "<@111>" := by decide
  have hmention : parseMentionId "<@111>" = some 111 := by decide
  have hres : resolve_member (some g) "<@111>" = some m := by
    unfold resolve_member
    rw [hstrip]
    simp only [hmention, hm]
  unfold dispatchedCommand
  simp only [hns, hsp, hres, Option.map_some']

/-- C1 witness: in the one-member guild the parsed step is the hug of
member 111. -/
theorem C1_witness :
    dispatchedCommand (some guildC1) "hug <@111> then pat then slap" =
      some ("hug", memC1) :=
  C1_theorem guildC1 memC1 (by decide)

/-- C1 counterexample: the claimed three-step chain does not exist — the
handler dispatches exactly one step, and its full output contains exactly
one caption message and one media embed (for `hug` alone), not one
response per chained action. -/
theorem C1_counterexample :
    (dispatchedCommand (some guildC1) "hug <@111> then pat then slap").toList.length
        = 1 ∧
    (handle_message_event cfgEx oEx 100 msgC1 stEmpty).2.countP
        (fun o => match o with | Output.embedImage _ => true | _ => false) = 1 ∧
    (handle_message_event cfgEx oEx 100 msgC1 stEmpty).2.countP
        (fun o => match o with | Output.message _ => true | _ => false) = 1 := by
  have hone : dispatchedCommand (some guildC1) "hug <@111> then pat then slap" =
      some ("hug", memC1) := C1_theorem guildC1 memC1 (by decide)
  refine ⟨by rw [hone]; rfl, ?_⟩
  have hdisp : handle_message_event cfgEx oEx 100 msgC1 stEmpty =
      send_owo_style cfgEx oEx 100 stEmpty 7 5 "Me" "U1" "hug" := by
    unfold handle_message_event
    rw [if_neg (by decide : ¬ (msgC1.content = ""))]
    rw [if_neg (by decide : ¬ (msgC1.authorBot = true))]
    rw [if_neg (by decide : ¬ (msgC1.isDM = true))]
    rw [if_neg (by decide : ¬ (helpMatchB (toLowerStr (pyStrip msgC1.content)) = true))]
    have : dispatchedCommand msgC1.guild (pyStrip msgC1.content) = some ("hug", memC1) := by
      have h1 : msgC1.guild = some guildC1 := rfl
      have h2 : pyStrip msgC1.content = "hug <@111> then pat then slap" := by decide
      rw [h1, h2, hone]
    rw [this]
    rfl
  rw [hdisp]
  have hrem : ¬ 0 < get_cooldown_remaining cfgEx.cooldownSeconds stEmpty.cooldowns
      100 5 "hug" := by
    unfold get_cooldown_remaining
    show ¬ 0 < if (100 : ℚ) - stEmpty.cooldowns (5, "hug") < 5 then
      5 - ((100 : ℚ) - stEmpty.cooldowns (5, "hug")) else 0
    norm_num [stEmpty]
  rw [send_owo_style_allowed_outputs cfgEx oEx 100 stEmpty 7 5 "Me" "U1" "hug" hrem]
  rcases hch : (choose_gif_for_action cfgEx oEx.fetched stEmpty.recent 7 "hug").1
      with _ | v
  · exact absurd hch (by decide)
  · exact ⟨rfl, rfl⟩

/-! ## C9: recent-list invariant -/

lemma nubKeepFirst_nodup (l : List String) : (nubKeepFirst l).Nodup := by
  induction l with
  | nil => simp [nubKeepFirst]
  | cons x xs ih =>
    rw [show nubKeepFirst (x :: xs) = x :: (nubKeepFirst xs).filter (fun y => y ≠ x)
      from rfl]
    refine List.nodup_cons.mpr ⟨?_, ih.filter _⟩
    intro hmem
    have hp := List.of_mem_filter hmem
    simp at hp

lemma filter_ne_of_not_mem (x : String) (l : List String) (h : x ∉ l) :
    l.filter (fun y => y ≠ x) = l := by
  apply List.filter_eq_self.mpr
  intro a ha
  simp only [decide_eq_true_eq]
  exact fun hax => h (hax ▸ ha)

lemma filter_take_of_mem (x : String) : ∀ (l : List String) (m : Nat), l.Nodup →
    x ∈ l.take (m + 1) →
    (l.take (m + 1)).filter (fun y => y ≠ x) = (l.filter (fun y => y ≠ x)).take m := by
  intro l
  induction l with
  | nil =>
    intro m _ hmem
    simp at hmem
  | cons y ys ih =>
    intro m hnd hmem
    rw [List.take_succ_cons] at hmem ⊢
    by_cases hyx : y = x
    · subst hyx
      have hxnotin : y ∉ ys := (List.nodup_cons.mp hnd).1
      have hxnotin2 : y ∉ ys.take m := fun hmem2 => hxnotin (List.take_subset m ys hmem2)
      rw [List.filter_cons_of_neg (by simp), List.filter_cons_of_neg (by simp)]
      rw [filter_ne_of_not_mem y _ hxnotin2, filter_ne_of_not_mem y _ hxnotin]
    · have hmem2 : x ∈ ys.take m := by
        rcases List.mem_cons.mp hmem with h | h
        · exact absurd h.symm hyx
        · exact h
      cases m with
      | zero => simp at hmem2
      | succ k =>
        have hnd2 := (List.nodup_cons.mp hnd).2
        have hyd : (decide (y ≠ x)) = true := by simp [hyx]
        simp only [List.filter_cons, hyd, if_true]
        rw [List.take_succ_cons, ih k hnd2 hmem2]

lemma filter_take_of_not_mem (x : String) : ∀ (l : List String) (m : Nat),
    x ∉ l.take (m + 1) →
    (l.filter (fun y => y ≠ x)).take m = l.take m := by
  intro l
  induction l with
  | nil => simp
  | cons y ys ih =>
    intro m hmem
    rw [List.take_succ_cons] at hmem
    have hxy : x ≠ y ∧ x ∉ ys.take m := by
      constructor
      · intro h
        exact hmem (by rw [h]; exact List.mem_cons_self y (ys.take m))
      · intro h
        exact hmem (List.mem_cons.mpr (Or.inr h))
    have hyd : (decide (y ≠ x)) = true := by
      simp only [decide_eq_true_eq]
      exact fun h => hxy.1 h.symm
    simp only [List.filter_cons, hyd, if_true]
    cases m with
    | zero => simp
    | succ k =>
      rw [List.take_succ_cons, List.take_succ_cons, ih k hxy.2]

lemma addList_take_nub (cap : Nat) (x : String) (l : List String) :
    addList cap ((nubKeepFirst l).take cap) x = (nubKeepFirst (x :: l)).take cap := by
  have hnodup : (nubKeepFirst l).Nodup := nubKeepFirst_nodup l
  have hnodupT : ((nubKeepFirst l).take cap).Nodup :=
    (List.take_sublist cap (nubKeepFirst l)).nodup hnodup
  rw [show nubKeepFirst (x :: l) = x :: (nubKeepFirst l).filter (fun y => y ≠ x)
    from rfl]
  cases cap with
  | zero =>
    rw [List.take_zero, List.take_zero]
    rfl
  | succ c =>
    by_cases hx : x ∈ (nubKeepFirst l).take (c + 1)
    · have herase : ((nubKeepFirst l).take (c + 1)).erase x =
          ((nubKeepFirst l).take (c + 1)).filter (fun y => y ≠ x) := by
        rw [List.Nodup.erase_eq_filter hnodupT]
        apply List.filter_congr
        intro a _
        by_cases h : a = x <;> simp [h]
      have hfilter := filter_take_of_mem x (nubKeepFirst l) c hnodup hx
      unfold addList
      rw [herase, hfilter]
      have hlen : ¬ (c + 1 <
          (x :: ((nubKeepFirst l).filter (fun y => y ≠ x)).take c).length) := by
        rw [List.length_cons]
        have := List.length_take_le c ((nubKeepFirst l).filter (fun y => y ≠ x))
        omega
      rw [if_neg hlen, List.take_succ_cons]
    · have herase : ((nubKeepFirst l).take (c + 1)).erase x =
          (nubKeepFirst l).take (c + 1) := List.erase_of_not_mem hx
      unfold addList
      rw [herase]
      by_cases hlen : c + 1 < (x :: (nubKeepFirst l).take (c + 1)).length
      · rw [if_pos hlen, List.take_succ_cons, List.take_succ_cons, List.take_take]
        congr 1
        rw [show c ⊓ (c + 1) = c from by omega]
        exact (filter_take_of_not_mem x (nubKeepFirst l) c hx).symm
      · rw [if_neg hlen]
        have hNlen : (nubKeepFirst l).length ≤ c := by
          rw [List.length_cons, List.length_take] at hlen
          omega
        have htake : (nubKeepFirst l).take (c + 1) = nubKeepFirst l :=
          List.take_of_length_le (by omega)
        rw [htake] at hx ⊢
        rw [filter_ne_of_not_mem x _ hx]
        rw [List.take_of_length_le (by rw [List.length_cons]; omega)]

lemma foldl_addList_nub (cap : Nat) : ∀ (urls l : List String),
    List.foldl (addList cap) ((nubKeepFirst l).take cap) urls =
      (nubKeepFirst (urls.reverse ++ l)).take cap := by
  intro urls
  induction urls with
  | nil =>
    intro l
    simp
  | cons u us ih =>
    intro l
    rw [List.foldl_cons, addList_take_nub, ih (u :: l)]
    congr 2
    rw [List.reverse_cons, List.append_assoc]
    rfl

lemma applyRecentOps_apply (cap : Nat) : ∀ (ops : List (Nat × String))
    (st : Nat → List String) (g : Nat),
    applyRecentOps cap st ops g =
      List.foldl (addList cap) (st g) ((ops.filter (fun p => p.1 = g)).map Prod.snd) := by
  intro ops
  induction ops with
  | nil =>
    intro st g
    rfl
  | cons p ops ih =>
    intro st g
    rcases p with ⟨g2, u⟩
    rw [show applyRecentOps cap st ((g2, u) :: ops) =
      applyRecentOps cap (add_recent_gif cap st g2 u) ops from rfl]
    rw [ih]
    by_cases hg : g2 = g
    · subst hg
      rw [add_recent_gif_apply_self]
      rw [List.filter_cons_of_pos (by simp), List.map_cons, List.foldl_cons]
    · rw [add_recent_gif_apply_other cap st g2 g u (fun h => hg h.symm)]
      rw [List.filter_cons_of_neg (by simp [hg])]

lemma choose_gif_store_of_none (cfg : Config) (fetched : List String)
    (store : Nat → List String) (gid : Nat) (a : String)
    (h : (choose_gif_for_action cfg fetched store gid a).1 = none) :
    (choose_gif_for_action cfg fetched store gid a).2 = store := by
  unfold choose_gif_for_action at h ⊢
  rcases hf : (resolvedCandidates cfg fetched a).find?
      (fun v => !((get_recent_gifs store gid).contains v)) with _ | w
  · rcases hc : resolvedCandidates cfg fetched a with _ | ⟨c, cs⟩
    · rw [hc] at hf
      rcases hg : cfg.generics.head? with _ | g
      · simp only [hc, hf, hg]
      · simp only [hc, hf, hg] at h
        exact Option.noConfusion h
    · rw [hc] at hf
      simp only [hc, hf] at h
      exact Option.noConfusion h
  · simp only [hf] at h
    exact Option.noConfusion h

/-- C9: starting from the empty store, after any sequence of recent-GIF
updates the per-guild list equals the first-occurrence dedup of the
guild's update history, newest first, truncated to the retention cap — in
particular it is ordered most-recent-first and never exceeds the cap; and
every media resolution either leaves the store untouched or performs
exactly one such `add_recent_gif` update, so resolutions are covered by
the update sequences. -/
theorem C9_theorem (cap : Nat) (ops : List (Nat × String)) (g : Nat) :
    applyRecentOps cap emptyRecent ops g =
      (nubKeepFirst (((ops.filter (fun p => p.1 = g)).map Prod.snd).reverse)).take cap ∧
    (applyRecentOps cap emptyRecent ops g).length ≤ cap ∧
    (∀ (cfg : Config) (fetched : List String) (store : Nat → List String)
        (gid : Nat) (a : String),
      (choose_gif_for_action cfg fetched store gid a).2 = store ∨
        ∃ u, (choose_gif_for_action cfg fetched store gid a).2 =
          add_recent_gif cfg.recentCap store gid u) := by
  have hmain : applyRecentOps cap emptyRecent ops g =
      (nubKeepFirst (((ops.filter (fun p => p.1 = g)).map Prod.snd).reverse)).take cap := by
    rw [applyRecentOps_apply]
    have h0 : emptyRecent g = (nubKeepFirst []).take cap := by
      simp [emptyRecent, nubKeepFirst]
    rw [h0, foldl_addList_nub]
    rw [List.append_nil]
  refine ⟨hmain, ?_, ?_⟩
  · rw [hmain]
    exact List.length_take_le _ _
  · intro cfg fetched store gid a
    rcases hch : (choose_gif_for_action cfg fetched store gid a).1 with _ | u
    · exact Or.inl (choose_gif_store_of_none cfg fetched store gid a hch)
    · exact Or.inr ⟨u, choose_gif_store_of_some cfg fetched store gid a u hch⟩

/-! ## C8: caption length and whitespace normalization -/

lemma tokensAux_good : ∀ (l cur : List Char),
    (∀ c ∈ cur, c.isWhitespace = false) → ∀ t ∈ tokensAux cur l, goodTok t := by
  intro l
  induction l with
  | nil =>
    intro cur hcur t ht
    unfold tokensAux at ht
    by_cases hc : cur = []
    · rw [if_pos hc] at ht
      simp at ht
    · rw [if_neg hc] at ht
      rcases List.mem_singleton.mp ht with rfl
      refine ⟨by simpa using hc, ?_⟩
      intro ch hch
      exact hcur ch (List.mem_reverse.mp hch)
  | cons c cs ih =>
    intro cur hcur t ht
    unfold tokensAux at ht
    by_cases hw : c.isWhitespace = true
    · rw [if_pos hw] at ht
      by_cases hc : cur = []
      · rw [if_pos hc] at ht
        exact ih [] (by simp) t ht
      · rw [if_neg hc] at ht
        rcases List.mem_cons.mp ht with h | h
        · subst h
          refine ⟨by simpa using hc, ?_⟩
          intro ch hch
          exact hcur ch (List.mem_reverse.mp hch)
        · exact ih [] (by simp) t h
    · rw [if_neg hw] at ht
      refine ih (c :: cur) ?_ t ht
      intro ch hch
      rcases List.mem_cons.mp hch with h | h
      · subst h
        simpa using hw
      · exact hcur ch h

lemma chain'_of_all_nonws (l : List Char) (h : ∀ c ∈ l, c.isWhitespace = false) :
    List.Chain' (fun a b => ¬ (a.isWhitespace = true ∧ b.isWhitespace = true)) l := by
  induction l with
  | nil => exact List.chain'_nil
  | cons a t ih =>
    cases t with
    | nil => exact List.chain'_singleton a
    | cons b t2 =>
      refine List.chain'_cons.mpr ⟨?_, ?_⟩
      · intro ⟨ha, _⟩
        rw [h a (List.mem_cons_self a _)] at ha
        exact Bool.noConfusion ha
      · exact ih fun c hc => h c (List.mem_cons.mpr (Or.inr hc))

lemma normChars_of_token (t : List Char) (h : goodTok t) : NormChars t := by
  obtain ⟨hne, hnws⟩ := h
  refine ⟨?_, ?_, chain'_of_all_nonws t hnws, ?_⟩
  · cases t with
    | nil => exact absurd rfl hne
    | cons c cs =>
      show (!c.isWhitespace) = true
      rw [hnws c (List.mem_cons_self c cs)]
      rfl
  · rcases List.eq_nil_or_concat t with rfl | ⟨t2, z, rfl⟩
    · exact absurd rfl hne
    · unfold lastNotWs
      rw [show t2.concat z = t2 ++ [z] from List.concat_eq_append t2 z]
      rw [List.getLast?_concat]
      show (!z.isWhitespace) = true
      rw [hnws z (by simp)]
      rfl
  · intro c hc hw
    rw [hnws c hc] at hw
    exact Bool.noConfusion hw

lemma joinToks_head (t : List Char) (ts : List (List Char)) (h : t ≠ []) :
    (joinToks (t :: ts)).head? = t.head? := by
  cases ts with
  | nil => rfl
  | cons t2 ts2 =>
    show (t ++ ' ' :: joinToks (t2 :: ts2)).head? = t.head?
    exact List.head?_append_of_ne_nil t h

lemma joinToks_ne_nil (t : List Char) (ts : List (List Char)) (h : t ≠ []) :
    joinToks (t :: ts) ≠ [] := by
  cases ts with
  | nil => exact h
  | cons t2 ts2 =>
    show t ++ ' ' :: joinToks (t2 :: ts2) ≠ []
    simp [h]

lemma getLast?_append_cons (l₁ : List Char) (c : Char) (l₂ : List Char) :
    (l₁ ++ c :: l₂).getLast? = (c :: l₂).getLast? := by
  rcases List.eq_nil_or_concat l₂ with rfl | ⟨t2, z, rfl⟩
  · rw [show l₁ ++ [c] = (l₁ ++ []) ++ [c] by simp, List.getLast?_concat]
    rfl
  · rw [List.concat_eq_append]
    rw [show l₁ ++ c :: (t2 ++ [z]) = (l₁ ++ c :: t2) ++ [z] by simp, List.getLast?_concat]
    rw [show c :: (t2 ++ [z]) = (c :: t2) ++ [z] by rfl, List.getLast?_concat]

lemma norm_glue (l₁ l₂ : List Char) (h₁ : NormChars l₁) (hne₁ : l₁ ≠ [])
    (h₂ : NormChars l₂) (hne₂ : l₂ ≠ []) : NormChars (l₁ ++ ' ' :: l₂) := by
  obtain ⟨hh₁, hl₁, hc₁, hs₁⟩ := h₁
  obtain ⟨hh₂, hl₂, hc₂, hs₂⟩ := h₂
  refine ⟨?_, ?_, ?_, ?_⟩
  · unfold headNotWs at hh₁ ⊢
    rw [List.head?_append_of_ne_nil l₁ hne₁]
    exact hh₁
  · unfold lastNotWs at hl₂ ⊢
    rw [getLast?_append_cons]
    cases l₂ with
    | nil => exact absurd rfl hne₂
    | cons b t =>
      rw [show (' ' :: b :: t).getLast? = (b :: t).getLast? from rfl]
      exact hl₂
  · rw [List.chain'_append]
    refine ⟨hc₁, ?_, ?_⟩
    · refine List.chain'_cons'.mpr ⟨?_, hc₂⟩
      intro y hy
      intro ⟨_, hyw⟩
      cases l₂ with
      | nil => exact absurd rfl hne₂
      | cons b t =>
        have hb : b = y := by simpa using hy
        subst hb
        have hbw : b.isWhitespace = false := by
          have h3 : (!b.isWhitespace) = true := hh₂
          simpa using h3
        rw [hbw] at hyw
        exact Bool.noConfusion hyw
    · intro x hx y hy
      intro ⟨hxw, _⟩
      rcases List.eq_nil_or_concat l₁ with rfl | ⟨t2, z, rfl⟩
      · exact absurd rfl hne₁
      · rw [List.concat_eq_append, List.getLast?_concat] at hx
        have hz : z = x := by simpa using hx
        subst hz
        have hzw : z.isWhitespace = false := by
          have h3 : lastNotWs (t2.concat z) = true := hl₁
          rw [List.concat_eq_append] at h3
          have h4 : lastNotWs (t2 ++ [z]) = (!z.isWhitespace) := by
            unfold lastNotWs
            rw [List.getLast?_concat]
          rw [h4] at h3
          simpa using h3
        rw [hzw] at hxw
        exact Bool.noConfusion hxw
  · intro c hc hw
    rcases List.mem_append.mp hc with h | h
    · exact hs₁ c h hw
    · rcases List.mem_cons.mp h with rfl | h
      · rfl
      · exact hs₂ c h hw

lemma norm_joinToks : ∀ (ts : List (List Char)), (∀ t ∈ ts, goodTok t) →
    NormChars (joinToks ts) := by
  intro ts
  induction ts with
  | nil =>
    intro _
    exact ⟨rfl, rfl, List.chain'_nil, fun c hc _ => absurd hc (List.not_mem_nil c)⟩
  | cons t ts ih =>
    intro hg
    have ht : goodTok t := hg t (List.mem_cons_self t ts)
    cases ts with
    | nil => exact normChars_of_token t ht
    | cons t2 ts2 =>
      have hJ : NormChars (joinToks (t2 :: ts2)) :=
        ih fun u hu => hg u (List.mem_cons.mpr (Or.inr hu))
      have hJne : joinToks (t2 :: ts2) ≠ [] :=
        joinToks_ne_nil t2 ts2 (hg t2 (by simp)).1
      show NormChars (t ++ ' ' :: joinToks (t2 :: ts2))
      exact norm_glue _ _ (normChars_of_token t ht) ht.1 hJ hJne

lemma norm_compact (s : String) : NormalizedWs (compact s) := by
  unfold NormalizedWs compact
  show NormChars (joinToks (tokensAux [] s.data))
  exact norm_joinToks _ (tokensAux_good s.data [] (by simp))

lemma norm_truncate (l : List Char) (h : NormChars l) (hlen : 280 < l.length) :
    NormChars (l.take 277 ++ ['.', '.', '.']) := by
  obtain ⟨hh, hl, hc, hs⟩ := h
  refine ⟨?_, ?_, ?_, ?_⟩
  · unfold headNotWs at hh ⊢
    cases l with
    | nil => simp at hlen
    | cons a t =>
      rw [show (a :: t).take 277 = a :: t.take 276 from rfl]
      exact hh
  · unfold lastNotWs
    rw [show (['.', '.', '.'] : List Char) = ['.', '.'] ++ ['.'] from rfl,
      ← List.append_assoc, List.getLast?_concat]
    rfl
  · rw [List.chain'_append]
    refine ⟨hc.take 277,
      chain'_of_all_nonws _ (by decide), ?_⟩
    intro x _ y hy
    have hy2 : ('.' : Char) = y := by simpa using hy
    intro ⟨_, hw⟩
    rw [← hy2] at hw
    exact absurd hw (by decide)
  · intro c hc2 hw
    rcases List.mem_append.mp hc2 with h2 | h2
    · exact hs c (List.take_subset 277 l h2) hw
    · have h3 : c = '.' := by simpa using h2
      subst h3
      exact absurd hw (by decide)

lemma pick_mem (l : List String) (i : Nat) (h : l ≠ []) : pick l i ∈ l := by
  unfold pick
  have hlt : i % l.length < l.length := Nat.mod_lt _ (List.length_pos.mpr h)
  rw [List.getD_eq_getElem l "" hlt]
  exact List.getElem_mem hlt

lemma data_append_space (a b : String) : (a ++ " " ++ b).data = a.data ++ ' ' :: b.data := by
  rw [String.data_append, String.data_append, List.append_assoc]
  rfl

lemma owoify_flavor (r : ℚ) (i : Nat) (caption : String)
    (h : hasFlavorToken (toLowerStr (compact caption)) = true) :
    owoify_caption r i caption = compact caption := by
  unfold owoify_caption
  rw [if_pos h]

lemma owoify_no_flavor (r : ℚ) (i : Nat) (caption : String)
    (h : hasFlavorToken (toLowerStr (compact caption)) = false) :
    owoify_caption r i caption =
      (if 280 < (owoifyDecorated r i (compact caption)).length then
        String.mk ((owoifyDecorated r i (compact caption)).data.take 277) ++ "..."
      else owoifyDecorated r i (compact caption)) := by
  unfold owoify_caption owoifyDecorated
  rw [if_neg (by rw [h]; exact Bool.false_ne_true)]

lemma generate_eq_owoify (tIdx sIdx : Nat) (r1 r2 rOwo : ℚ) (owoIdx : Nat)
    (action author target : String) (htempl : CAPTION_TEMPLATES action ≠ []) :
    generate_local_caption tIdx sIdx r1 r2 rOwo owoIdx action author target =
      owoify_caption rOwo owoIdx (composedRaw tIdx sIdx r2 action author target) := by
  unfold generate_local_caption composedRaw
  rw [if_neg htempl]

/-- C8 amended: the composed caption is the owoified, whitespace-compacted
template text; when it does not already contain a flavor token it never
exceeds 280 characters and is truncated with a "..." marker exactly when
the decorated text exceeds that limit; a caption already containing a
flavor token (uwu, owo, nya, ♥, 💖, ✨) is returned compacted but
untruncated and may exceed 280 characters; in all cases, when the
compacted text is nonempty, the output is whitespace-normalized. -/
theorem C8_theorem (tIdx sIdx : Nat) (r1 r2 rOwo : ℚ) (owoIdx : Nat)
    (action author target : String)
    (htempl : CAPTION_TEMPLATES action ≠ []) :
    (hasFlavorToken (toLowerStr
          (compact (composedRaw tIdx sIdx r2 action author target))) = true →
      generate_local_caption tIdx sIdx r1 r2 rOwo owoIdx action author target =
        compact (composedRaw tIdx sIdx r2 action author target)) ∧
    (hasFlavorToken (toLowerStr
          (compact (composedRaw tIdx sIdx r2 action author target))) = false →
      (generate_local_caption tIdx sIdx r1 r2 rOwo owoIdx action author target).length
          ≤ 280 ∧
      (280 < (owoifyDecorated rOwo owoIdx
            (compact (composedRaw tIdx sIdx r2 action author target))).length →
        generate_local_caption tIdx sIdx r1 r2 rOwo owoIdx action author target =
          String.mk ((owoifyDecorated rOwo owoIdx
            (compact (composedRaw tIdx sIdx r2 action author target))).data.take 277)
            ++ "...") ∧
      ((owoifyDecorated rOwo owoIdx
            (compact (composedRaw tIdx sIdx r2 action author target))).length ≤ 280 →
        generate_local_caption tIdx sIdx r1 r2 rOwo owoIdx action author target =
          owoifyDecorated rOwo owoIdx
            (compact (composedRaw tIdx sIdx r2 action author target)))) ∧
    (compact (composedRaw tIdx sIdx r2 action author target) ≠ "" →
      NormalizedWs
        (generate_local_caption tIdx sIdx r1 r2 rOwo owoIdx action author target)) := by
  have hout := generate_eq_owoify tIdx sIdx r1 r2 rOwo owoIdx action author target htempl
  refine ⟨?_, ?_, ?_⟩
  · intro hfl
    rw [hout]
    exact owoify_flavor rOwo owoIdx _ hfl
  · intro hfl
    rw [hout, owoify_no_flavor rOwo owoIdx _ hfl]
    refine ⟨?_, ?_, ?_⟩
    · by_cases hm : 280 < (owoifyDecorated rOwo owoIdx
          (compact (composedRaw tIdx sIdx r2 action author target))).length
      · rw [if_pos hm]
        rw [String.length_append]
        have h1 : (String.mk ((owoifyDecorated rOwo owoIdx
            (compact (composedRaw tIdx sIdx r2 action author target))).data.take 277)).length =
            277 ⊓ (owoifyDecorated rOwo owoIdx
              (compact (composedRaw tIdx sIdx r2 action author target))).data.length := by
          show ((owoifyDecorated rOwo owoIdx
            (compact (composedRaw tIdx sIdx r2 action author target))).data.take 277).length = _
          exact List.length_take 277 _
        rw [h1]
        have h2 : (owoifyDecorated rOwo owoIdx
            (compact (composedRaw tIdx sIdx r2 action author target))).length =
            (owoifyDecorated rOwo owoIdx
              (compact (composedRaw tIdx sIdx r2 action author target))).data.length := rfl
        rw [h2] at hm
        have h3 : ("..." : String).length = 3 := rfl
        rw [h3]
        omega
      · rw [if_neg hm]
        omega
    · intro hm
      rw [if_pos hm]
    · intro hm
      rw [if_neg (by omega)]
  · intro hc
    have hcd : (compact (composedRaw tIdx sIdx r2 action author target)).data ≠ [] := by
      intro hdat
      apply hc
      have h2 : compact (composedRaw tIdx sIdx r2 action author target) =
          String.mk (compact (composedRaw tIdx sIdx r2 action author target)).data := rfl
      rw [h2, hdat]
    have hnormc : NormChars (compact (composedRaw tIdx sIdx r2 action author target)).data :=
      norm_compact (composedRaw tIdx sIdx r2 action author target)
    by_cases hfl : hasFlavorToken (toLowerStr
        (compact (composedRaw tIdx sIdx r2 action author target))) = true
    · rw [hout, owoify_flavor rOwo owoIdx _ hfl]
      exact hnormc
    · have hfl2 : hasFlavorToken (toLowerStr
          (compact (composedRaw tIdx sIdx r2 action author target))) = false := by
        simpa using hfl
      rw [hout, owoify_no_flavor rOwo owoIdx _ hfl2]
      have hmid : NormChars (owoifyDecorated rOwo owoIdx
          (compact (composedRaw tIdx sIdx r2 action author target))).data := by
        unfold owoifyDecorated
        by_cases h1 : rOwo < 35 / 100
        · rw [if_pos h1, data_append_space]
          have hsfx : goodTok (pick CUTE_SUFFIXES owoIdx).data := by
            have hall : ∀ s ∈ CUTE_SUFFIXES,
                s.data ≠ [] ∧ ∀ c ∈ s.data, c.isWhitespace = false := by decide
            exact hall _ (pick_mem CUTE_SUFFIXES owoIdx (by decide))
          exact norm_glue _ _ hnormc hcd (normChars_of_token _ hsfx) hsfx.1
        · rw [if_neg h1]
          by_cases h2 : rOwo < 65 / 100
          · rw [if_pos h2, String.data_append]
            have hheart : goodTok ("❤️" : String).data := ⟨by decide, by decide⟩
            show NormChars ((compact (composedRaw tIdx sIdx r2 action author target)).data
              ++ ' ' :: ("❤️" : String).data)
            exact norm_glue _ _ hnormc hcd (normChars_of_token _ hheart) hheart.1
          · rw [if_neg h2]
            exact hnormc
      by_cases hm : 280 < (owoifyDecorated rOwo owoIdx
          (compact (composedRaw tIdx sIdx r2 action author target))).length
      · rw [if_pos hm]
        show NormChars (String.mk ((owoifyDecorated rOwo owoIdx
          (compact (composedRaw tIdx sIdx r2 action author target))).data.take 277)
            ++ "...").data
        rw [String.data_append]
        show NormChars ((owoifyDecorated rOwo owoIdx
          (compact (composedRaw tIdx sIdx r2 action author target))).data.take 277
            ++ ['.', '.', '.'])
        exact norm_truncate _ hmid hm
      · rw [if_neg hm]
        exact hmid

set_option maxRecDepth 8000 in
/-- C8 counterexample: a 300-character author name substituted into the
hug template that ends in "uwu." produces a composed caption of 335
characters — the flavor-token early return of `owoify_caption` skips the
280-character truncation entirely. -/

theorem C8_counterexample :
    280 < (generate_local_caption 2 0 1 1 1 0 "hug"
      (String.mk (List.replicate 300 'a')) "b").length := by
  decide

/-- C8 amended witness: a short flavor-free caption stays within 280
characters. -/
theorem C8_witness :
    (generate_local_caption 0 0 1 1 1 0 "hug" "Ann" "Ben").length ≤ 280 := by
  have h := C8_theorem 0 0 1 1 1 0 "hug" "Ann" "Ben" (by decide)
  exact (h.2.1 (by decide)).1

end YooBot
